import Mathlib

/-!
# Status LED of the mEnki42 shield (`status_led.c`)

A shallow embedding of `config/boards/shields/mEnki42/status_led.c`.

The C globals (`current_r`, `current_g`, `current_b`, `is_conn_checking`,
`usb_conn_state`, `profile_blink_count`) are the fields of `State`.  Every call
that leaves the file (LED driver, `k_msleep`, the work-queue API) is appended to
`State.log`, so a C function of type `void f(args)` becomes a Lean function
`f args : State → State` and its observable behaviour is the suffix it appends
to the log.  `uint8_t` values are natural numbers reduced `% 256` at every store.
-/

namespace StatusLed

/-! ## Configuration constants -/

def LED_FADE_STEPS : Nat := 100
def LED_FADE_DELAY_MS : Nat := 2
def LED_BLINK_PROFILE_DELAY_MS : Nat := 500
def LED_BLINK_BATTERY_DELAY_MS : Nat := 400
def LED_BLINK_BT_CONNECT_DELAY_MS : Nat := 400
def LED_BLINK_USB_DELAY_MS : Nat := 200

/-! ## `LedColor` -/

def COLOR_PURPLE : Nat := 0x800080
def COLOR_YELLOW : Nat := 0xFFFF00
def COLOR_GREEN : Nat := 0x00FF00
def COLOR_RED : Nat := 0xFF0000
def COLOR_BLUE : Nat := 0x0000FF

/-! ## `LedType` and the `rgb_led` table -/

def RED_LED : Nat := 0
def GREEN_LED : Nat := 1
def BLUE_LED : Nat := 2
def LED_COUNT : Nat := 3

/-- The `.id` field of `rgb_led[led]`; the three entries share one device.
Indices `>= LED_COUNT` are outside the array and never used. -/
def rgb_led_id : Nat → Nat
  | 0 => 0
  | 1 => 1
  | 2 => 2
  | _ => 0

/-! ## Work items, queues and the call log -/

/-- The delayable work items of the file, one per handler. -/
inductive Work where
  | check_ble_conn_work
  | usb_animation_work
  | bat_animation_work
  | ble_profile_work
  | usb_conn_work
  deriving DecidableEq, Repr

/-- The work queues: `animation_work_q`, defined in the file, and the kernel's
system work queue. -/
inductive Queue where
  | animation_work_q
  | k_sys_work_q
  deriving DecidableEq, Repr

/-- One call that leaves `status_led.c`. -/
inductive Event where
  | led_set_brightness (id : Nat) (brightness : Nat)
  | led_off (id : Nat)
  | k_msleep (ms : Int)
  | k_work_queue_init (q : Queue)
  | k_work_queue_start (q : Queue) (prio : Nat)
  | k_work_schedule_for_queue (q : Queue) (w : Work) (delay_ms : Nat)
  | k_work_reschedule (w : Work) (delay_ms : Nat)
  deriving DecidableEq, Repr

/-- The globals of `status_led.c`, the kernel clock (`now`, in ms), the deadline
of every delayable work item that is pending, and the log of outgoing calls. -/
structure State where
  is_conn_checking : Bool
  usb_conn_state : Int
  current_r : Nat
  current_g : Nat
  current_b : Nat
  profile_blink_count : Int
  now : Nat
  pending : Work → Option Nat
  log : List Event

/-- Modelled from the spec: `enum zmk_usb_conn_state` is declared outside the
sources; its enumerators are numbered in declaration order (no wired link,
powered without data, powered with a host). -/
def ZMK_USB_CONN_NONE : Int := 0
/-- Modelled from the spec: second enumerator of `enum zmk_usb_conn_state`. -/
def ZMK_USB_CONN_POWERED : Int := 1
/-- Modelled from the spec: third enumerator of `enum zmk_usb_conn_state`. -/
def ZMK_USB_CONN_HID : Int := 2
/-- Modelled from the spec: the "suspended" wired-link state.  `USB_DC_SUSPEND`
is declared outside the sources, in the USB device controller's
`enum usb_dc_status_code` (its sixth enumerator), not in
`enum zmk_usb_conn_state`; it differs from the three values above. -/
def USB_DC_SUSPEND : Int := 5
/-- Modelled from the spec: the "propagate" result of an event listener. -/
def ZMK_EV_EVENT_BUBBLE : Int := 0
/-- Modelled from the spec: the listener result that stops the propagation, the
event being handled. -/
def ZMK_EV_EVENT_HANDLED : Int := 1
/-- Modelled from the spec: the listener result that stops the propagation, the
event being captured. -/
def ZMK_EV_EVENT_CAPTURED : Int := 2

/-- The state after static initialisation (`is_conn_checking = false`,
`usb_conn_state = ZMK_USB_CONN_NONE`, colour off, `profile_blink_count = 1`). -/
def State.boot : State where
  is_conn_checking := false
  usb_conn_state := ZMK_USB_CONN_NONE
  current_r := 0
  current_g := 0
  current_b := 0
  profile_blink_count := 1
  now := 0
  pending := fun _ => none
  log := []

/-- The displayed colour `(current_r, current_g, current_b)`. -/
def State.displayed (s : State) : Nat × Nat × Nat :=
  (s.current_r, s.current_g, s.current_b)

/-! ## External calls -/

def led_set_brightness (id brightness : Nat) (s : State) : State :=
  { s with log := s.log ++ [Event.led_set_brightness id brightness] }

def led_off (id : Nat) (s : State) : State :=
  { s with log := s.log ++ [Event.led_off id] }

/-- `k_msleep(ms)` suspends the caller.  The kernel, which is outside the
sources, declares the parameter as `int32_t`: the call is logged with the
signed value it receives, and the clock advances by `ms` (a negative duration
does not wait). -/
def k_msleep (ms : Int) (s : State) : State :=
  { s with now := s.now + ms.toNat, log := s.log ++ [Event.k_msleep ms] }

/-- The conversion of a `uint32_t` argument (here `delay_ms`, reduced to 32
bits) to the `int32_t` parameter of `k_msleep`: values from `2^31` on wrap to
negative ones. -/
def int32_of_uint32 (v : Nat) : Int :=
  if v % 2 ^ 32 < 2 ^ 31 then ((v % 2 ^ 32 : Nat) : Int)
  else ((v % 2 ^ 32 : Nat) : Int) - 2 ^ 32

/-- `K_NO_WAIT`, in milliseconds. -/
def K_NO_WAIT : Nat := 0

/-- `K_SECONDS(n)`, in milliseconds. -/
def K_SECONDS (n : Nat) : Nat := n * 1000

def k_work_queue_init (q : Queue) (s : State) : State :=
  { s with log := s.log ++ [Event.k_work_queue_init q] }

def k_work_queue_start (q : Queue) (prio : Nat) (s : State) : State :=
  { s with log := s.log ++ [Event.k_work_queue_start q prio] }

/-- Modelled from the spec: the kernel's delayable-work API is not part of the
sources.  Submitting an item that is already pending is coalesced: the item
stays pending once, with the deadline it has (§4.3); otherwise it becomes
pending, due `delay_ms` after the current time. -/
def k_work_schedule_for_queue (q : Queue) (w : Work) (delay_ms : Nat) (s : State) : State :=
  { s with
    pending :=
      if (s.pending w).isSome then s.pending
      else Function.update s.pending w (some (s.now + delay_ms))
    log := s.log ++ [Event.k_work_schedule_for_queue q w delay_ms] }

/-- Modelled from the spec: the kernel's delayable-work API is not part of the
sources.  Rescheduling replaces the pending deadline of the item, if any, by
`delay_ms` after the current time (§4.3, §5: identity-based replacement). -/
def k_work_reschedule (w : Work) (delay_ms : Nat) (s : State) : State :=
  { s with
    pending := Function.update s.pending w (some (s.now + delay_ms))
    log := s.log ++ [Event.k_work_reschedule w delay_ms] }

/-! ## The renderer -/

/-- `set_led_brightness(led, brightness)`; the parameter is a `uint8_t`. -/
def set_led_brightness (led : Nat) (brightness : Nat) (s : State) : State :=
  led_set_brightness (rgb_led_id led) (brightness % 256) s

/-- Body of the `for (int i = 0; i < LED_COUNT; i++)` loop of `turn_off_all_leds`. -/
def turn_off_step (s : State) (i : Nat) : State :=
  led_off (rgb_led_id i) s

/-- Body of the fade-down loop of `turn_off_all_leds`, at loop index `i`. -/
def fade_down_step (s : State) (i : Nat) : State :=
  let s := set_led_brightness RED_LED (s.current_r * i / LED_FADE_STEPS) s
  let s := set_led_brightness GREEN_LED (s.current_g * i / LED_FADE_STEPS) s
  let s := set_led_brightness BLUE_LED (s.current_b * i / LED_FADE_STEPS) s
  k_msleep LED_FADE_DELAY_MS s

/-- `turn_off_all_leds()`.  The second loop runs `i = LED_FADE_STEPS, ..., 0`. -/
def turn_off_all_leds (s : State) : State :=
  if s.current_r = 0 ∧ s.current_g = 0 ∧ s.current_b = 0 then
    (List.range LED_COUNT).foldl turn_off_step s
  else
    let s := (List.range (LED_FADE_STEPS + 1)).reverse.foldl fade_down_step s
    { s with current_r := 0, current_g := 0, current_b := 0 }

/-- Red channel of a `LedColor`: `(color >> 16) & 0xFF` stored in a `uint8_t`. -/
def target_r (color : Nat) : Nat := ((color >>> 16) &&& 0xFF) % 256
/-- Green channel of a `LedColor`: `(color >> 8) & 0xFF` stored in a `uint8_t`. -/
def target_g (color : Nat) : Nat := ((color >>> 8) &&& 0xFF) % 256
/-- Blue channel of a `LedColor`: `color & 0xFF` stored in a `uint8_t`. -/
def target_b (color : Nat) : Nat := (color &&& 0xFF) % 256

/-- Body of the fade loop of `rgb_set_color`, at loop index `i`. -/
def rgb_set_color_step (tr tg tb : Nat) (s : State) (i : Nat) : State :=
  let s := { s with current_r := (tr * i / LED_FADE_STEPS) % 256 }
  let s := { s with current_g := (tg * i / LED_FADE_STEPS) % 256 }
  let s := { s with current_b := (tb * i / LED_FADE_STEPS) % 256 }
  let s := set_led_brightness RED_LED s.current_r s
  let s := set_led_brightness GREEN_LED s.current_g s
  let s := set_led_brightness BLUE_LED s.current_b s
  k_msleep LED_FADE_DELAY_MS s

/-- `rgb_set_color(color)`.  The loop runs `i = 0, ..., LED_FADE_STEPS`. -/
def rgb_set_color (color : Nat) (s : State) : State :=
  if target_r color = s.current_r ∧ target_g color = s.current_g ∧
      target_b color = s.current_b then
    s
  else
    (List.range (LED_FADE_STEPS + 1)).foldl
      (rgb_set_color_step (target_r color) (target_g color) (target_b color)) s

/-- Body of the loop of `rgb_blink_with_color`; the `uint32_t delay_ms` is
converted to the `int32_t` parameter of `k_msleep` at both calls. -/
def rgb_blink_step (color delay_ms : Nat) (s : State) (_i : Nat) : State :=
  let s := rgb_set_color color s
  let s := k_msleep (int32_of_uint32 delay_ms) s
  let s := turn_off_all_leds s
  k_msleep (int32_of_uint32 delay_ms) s

/-- `rgb_blink_with_color(color, delay_ms, count)`: the loop
`for (int i = 0; i < count; i++)` runs `i = 0, ..., count - 1`, and not at all
for `count <= 0`. -/
def rgb_blink_with_color (color delay_ms : Nat) (count : Int) (s : State) : State :=
  (List.range count.toNat).foldl (rgb_blink_step color delay_ms) s

/-! ## Work handlers and listeners -/

def ANIMATION_WORK_Q_PRIORITY : Nat := 5

/-- `check_ble_conn_handler`; `connected` is what
`zmk_ble_active_profile_is_connected()` returns. -/
def check_ble_conn_handler (connected : Bool) (s : State) : State :=
  if ¬ s.is_conn_checking then
    s
  else if connected ∨ s.usb_conn_state ≠ ZMK_USB_CONN_NONE then
    { s with is_conn_checking := false }
  else
    let s := rgb_blink_with_color COLOR_RED LED_BLINK_BT_CONNECT_DELAY_MS 3 s
    k_work_reschedule Work.check_ble_conn_work (K_SECONDS 4) s

/-- `usb_animation_work_handler`, with `DISABLE_LED_SLEEP_PC` defined. -/
def usb_animation_work_handler (s : State) : State :=
  if s.usb_conn_state = USB_DC_SUSPEND then
    turn_off_all_leds s
  else
    rgb_blink_with_color COLOR_PURPLE LED_BLINK_USB_DELAY_MS 3 s

/-- `bat_animation_work_handler`; `soc` is what `zmk_battery_state_of_charge()`
returns, stored in the `uint8_t level`. -/
def bat_animation_work_handler (soc : Nat) (s : State) : State :=
  let level := soc % 256
  if level ≤ 15 then
    rgb_blink_with_color COLOR_YELLOW LED_BLINK_BATTERY_DELAY_MS 3 s
  else if level ≤ 30 then
    rgb_blink_with_color COLOR_GREEN LED_BLINK_BATTERY_DELAY_MS 1 s
  else if level ≤ 70 then
    rgb_blink_with_color COLOR_GREEN LED_BLINK_BATTERY_DELAY_MS 2 s
  else
    rgb_blink_with_color COLOR_GREEN LED_BLINK_BATTERY_DELAY_MS 3 s

/-- `led_init`: the result is the returned `int` and the new state. -/
def led_init (s : State) : Int × State :=
  let s := turn_off_all_leds s
  let s := k_work_queue_init Queue.animation_work_q s
  let s := k_work_queue_start Queue.animation_work_q ANIMATION_WORK_Q_PRIORITY s
  let s := k_work_schedule_for_queue Queue.animation_work_q Work.bat_animation_work
    (K_SECONDS 1) s
  (0, s)

/-- `ble_profile_work_handler`. -/
def ble_profile_work_handler (s : State) : State :=
  let s := rgb_blink_with_color COLOR_BLUE LED_BLINK_PROFILE_DELAY_MS s.profile_blink_count s
  if ¬ s.is_conn_checking then
    let s := { s with is_conn_checking := true }
    k_work_reschedule Work.check_ble_conn_work (K_SECONDS 4) s
  else
    s

/-- An event delivered to a listener: the two event types the file subscribes
to, with the payload fields it reads, and any other event. -/
inductive ZmkEvent where
  | ble_active_profile_changed (index : Nat)
  | usb_conn_state_changed (conn_state : Int)
  | other
  deriving DecidableEq, Repr

/-- `as_zmk_ble_active_profile_changed(eh)`: the payload when the event has
that type, `NULL` otherwise. -/
def as_zmk_ble_active_profile_changed : ZmkEvent → Option Nat
  | ZmkEvent.ble_active_profile_changed index => some index
  | _ => none

/-- `as_zmk_usb_conn_state_changed(eh)`: the payload when the event has that
type, `NULL` otherwise. -/
def as_zmk_usb_conn_state_changed : ZmkEvent → Option Int
  | ZmkEvent.usb_conn_state_changed conn_state => some conn_state
  | _ => none

/-- `ble_profile_listener`: the result is the returned `int` and the new state. -/
def ble_profile_listener (eh : ZmkEvent) (s : State) : Int × State :=
  match as_zmk_ble_active_profile_changed eh with
  | some index =>
    if index ≤ 2 then
      let s := { s with profile_blink_count := (index : Int) + 1 }
      let s := k_work_schedule_for_queue Queue.animation_work_q Work.ble_profile_work K_NO_WAIT s
      (ZMK_EV_EVENT_BUBBLE, s)
    else
      (ZMK_EV_EVENT_BUBBLE, s)
  | none => (ZMK_EV_EVENT_BUBBLE, s)

/-- `usb_conn_work_handler`. -/
def usb_conn_work_handler (s : State) : State :=
  if s.usb_conn_state = ZMK_USB_CONN_POWERED then
    k_work_schedule_for_queue Queue.animation_work_q Work.usb_animation_work K_NO_WAIT s
  else
    let s := { s with is_conn_checking := true }
    k_work_reschedule Work.check_ble_conn_work (K_SECONDS 4) s

/-- `usb_conn_listener`: the result is the returned `int` and the new state. -/
def usb_conn_listener (eh : ZmkEvent) (s : State) : Int × State :=
  match as_zmk_usb_conn_state_changed eh with
  | some conn_state =>
    let s := { s with usb_conn_state := conn_state }
    let s := k_work_schedule_for_queue Queue.animation_work_q Work.usb_conn_work K_NO_WAIT s
    (ZMK_EV_EVENT_BUBBLE, s)
  | none => (ZMK_EV_EVENT_BUBBLE, s)

/-- `show_battery`. -/
def show_battery (s : State) : State :=
  k_work_schedule_for_queue Queue.animation_work_q Work.bat_animation_work K_NO_WAIT s

/-- `hide_battery`: the body is empty. -/
def hide_battery (s : State) : State := s

/-! ## Observations on the log -/

/-- The calls a step `f` appends to the log when run from `s`. -/
def emitted (f : State → State) (s : State) : List Event :=
  (f s).log.drop s.log.length

/-- The colours written to the LED driver: every run of three brightness
writes to the channels 0, 1, 2 is one colour. -/
def writtenColors : List Event → List (Nat × Nat × Nat)
  | Event.led_set_brightness 0 r :: Event.led_set_brightness 1 g ::
      Event.led_set_brightness 2 b :: rest => (r, g, b) :: writtenColors rest
  | _ :: rest => writtenColors rest
  | [] => []

/-- The four calls of one fade step showing the colour `(r, g, b)`. -/
def frame (r g b : Nat) : List Event :=
  [Event.led_set_brightness 0 r, Event.led_set_brightness 1 g,
   Event.led_set_brightness 2 b, Event.k_msleep LED_FADE_DELAY_MS]

/-- The calls of a fade towards `(tr, tg, tb)` over the loop indices `l`. -/
def fadeLog (tr tg tb : Nat) (l : List Nat) : List Event :=
  l.flatMap fun i =>
    frame (tr * i / LED_FADE_STEPS) (tg * i / LED_FADE_STEPS) (tb * i / LED_FADE_STEPS)

/-- Whether a call is a `k_msleep`. -/
def Event.isSleep : Event → Bool
  | Event.k_msleep _ => true
  | _ => false

/-- The number of `k_msleep` calls in a log, of any length. -/
def sleepCount (l : List Event) : Nat := l.countP Event.isSleep

/-- The calls of one render/extinguish pair of `rgb_blink_with_color` started
in `s`: what `rgb_set_color(color)` emits, a sleep of `delay_ms` (as
`k_msleep` receives it), what `turn_off_all_leds()` emits after that, a sleep
of `delay_ms`. -/
def pairLog (color delay_ms : Nat) (s : State) : List Event :=
  emitted (rgb_set_color color) s ++ [Event.k_msleep (int32_of_uint32 delay_ms)] ++
    emitted turn_off_all_leds
      (k_msleep (int32_of_uint32 delay_ms) (rgb_set_color color s)) ++
    [Event.k_msleep (int32_of_uint32 delay_ms)]

/-- The `k_msleep` calls made inside the two renderer calls of the pair started
in `s`, the two sleeps of the blink loop itself left out. -/
def fadeSleeps (color delay_ms : Nat) (s : State) : Nat :=
  sleepCount (emitted (rgb_set_color color) s) +
    sleepCount (emitted turn_off_all_leds
      (k_msleep (int32_of_uint32 delay_ms) (rgb_set_color color s)))

/-- What a renderer call may change: only the colour, the clock and the log. -/
def sameGlobals (s t : State) : Prop :=
  t.is_conn_checking = s.is_conn_checking ∧ t.usb_conn_state = s.usb_conn_state ∧
    t.profile_blink_count = s.profile_blink_count ∧ t.pending = s.pending

/-- Whether a call goes to the LED driver or is a sleep: the calls the renderer
and the blink sequencer make. -/
def Event.isRender : Event → Bool
  | Event.led_set_brightness _ _ => true
  | Event.led_off _ => true
  | Event.k_msleep _ => true
  | _ => false

/-- The log of `t` is the log of `s` followed by renderer calls only. -/
def rendersOnly (s t : State) : Prop :=
  ∃ l : List Event, t.log = s.log ++ l ∧ ∀ e ∈ l, e.isRender = true

/-- The work item a call submits and the queue it goes to.
`k_work_schedule_for_queue` names its queue.  `k_work_reschedule(dwork, delay)`
has no queue argument: the kernel, which is outside the sources, defines it as
rescheduling on its system work queue, not on a queue of the application. -/
def Event.submits : Event → Option (Work × Queue)
  | Event.k_work_schedule_for_queue q w _ => some (w, q)
  | Event.k_work_reschedule w _ => some (w, Queue.k_sys_work_q)
  | _ => none

/-- The state once the work item `w` is no longer pending. -/
def State.dequeue (s : State) (w : Work) : State :=
  { s with pending := Function.update s.pending w none }

/-- Modelled from the spec: the consumer of a work queue (§4.3) is not part of
the sources.  When the item `w` is pending and due, it is taken off the queue
(it is no longer pending) and its handler runs once; otherwise nothing runs.
The result says whether the handler ran, and gives the new state. -/
def work_queue_run (w : Work) (handler : State → State) (s : State) : Bool × State :=
  match s.pending w with
  | some deadline =>
    if deadline ≤ s.now then (true, handler (s.dequeue w)) else (false, s)
  | none => (false, s)

/-- The state after two pairing-profile notifications, with the indices `i1`
then `i2`, and nothing in between. -/
def twoProfileNotifications (i1 i2 : Nat) (s : State) : State :=
  (ble_profile_listener (ZmkEvent.ble_active_profile_changed i2)
    (ble_profile_listener (ZmkEvent.ble_active_profile_changed i1) s).2).2

/-- Consecutive cycles of the poller: `check_ble_conn_handler` runs once per
entry of `readings`, the entry being what
`zmk_ble_active_profile_is_connected()` returns in that cycle. -/
def poller_cycles (readings : List Bool) (s : State) : State :=
  readings.foldl (fun t connected => check_ble_conn_handler connected t) s

/-- The calls of one poller cycle that finds no link, started in `t`. -/
def cycleLog (t : State) : List Event :=
  emitted (rgb_blink_with_color COLOR_RED 400 3) t ++
    [Event.k_work_reschedule Work.check_ble_conn_work 4000]

/-- A call of one of the three renderer operations. -/
inductive RenderOp where
  | set_color (color : Nat)
  | turn_off
  | blink (color delay_ms : Nat) (count : Int)
  deriving DecidableEq, Repr

/-- Runs one renderer operation. -/
def RenderOp.run : RenderOp → State → State
  | RenderOp.set_color color, s => rgb_set_color color s
  | RenderOp.turn_off, s => turn_off_all_leds s
  | RenderOp.blink color delay_ms count, s => rgb_blink_with_color color delay_ms count s

/-- The last target colour fully applied by `rgb_set_color`, after one more
operation (`last` is the one before it): a blink applies its colour when it
runs at least once. -/
def RenderOp.lastTarget : RenderOp → Option (Nat × Nat × Nat) → Option (Nat × Nat × Nat)
  | RenderOp.set_color color, _ => some (target_r color, target_g color, target_b color)
  | RenderOp.turn_off, last => last
  | RenderOp.blink color _ count, last =>
    if 0 < count then some (target_r color, target_g color, target_b color) else last

/-- Runs a sequence of renderer operations, keeping track of the last target
colour fully applied. -/
def runOps (ops : List RenderOp) (start : State × Option (Nat × Nat × Nat)) :
    State × Option (Nat × Nat × Nat) :=
  ops.foldl (fun st op => (op.run st.1, op.lastTarget st.2)) start

/-- The `DisplayState` invariant of §3: the displayed colour is all-zero or the
last target colour fully applied. -/
def DisplayInv (st : State × Option (Nat × Nat × Nat)) : Prop :=
  st.1.displayed = (0, 0, 0) ∨ some st.1.displayed = st.2

/-! ## Sample states -/

/-- A state showing full red, as `rgb_set_color(COLOR_RED)` leaves it. -/
def litRed : State := { State.boot with current_r := 255 }

/-- A state showing yellow, as `rgb_set_color(COLOR_YELLOW)` leaves it. -/
def litYellow : State := { State.boot with current_r := 255, current_g := 255 }

/-- A state in which the poller was armed at time 0, its first check is due at
4000 ms, no wired link is present, and the clock has reached 1000 ms. -/
def armedState : State :=
  { State.boot with
    is_conn_checking := true
    now := 1000
    pending := Function.update (fun _ => none) Work.check_ble_conn_work (some 4000) }

/-- The state after boot once the notification "powered with a host"
(`ZMK_USB_CONN_HID`) has been delivered to `usb_conn_listener`. -/
def hidNotified : State :=
  (usb_conn_listener (ZmkEvent.usb_conn_state_changed ZMK_USB_CONN_HID) State.boot).2

/-- An idle poller while the wired link is powered. -/
def idlePowered : State := { State.boot with usb_conn_state := ZMK_USB_CONN_POWERED }

/-! ## Arithmetic of the fade -/

theorem target_r_eq (color : Nat) : target_r color = color / 65536 % 256 := by
  unfold target_r
  have h := Nat.and_pow_two_sub_one_eq_mod (color >>> 16) 8
  norm_num at h
  rw [h, Nat.shiftRight_eq_div_pow]
  norm_num

theorem target_g_eq (color : Nat) : target_g color = color / 256 % 256 := by
  unfold target_g
  have h := Nat.and_pow_two_sub_one_eq_mod (color >>> 8) 8
  norm_num at h
  rw [h, Nat.shiftRight_eq_div_pow]
  norm_num

theorem target_b_eq (color : Nat) : target_b color = color % 256 := by
  unfold target_b
  have h := Nat.and_pow_two_sub_one_eq_mod color 8
  norm_num at h
  rw [h]
  norm_num

theorem target_r_lt (color : Nat) : target_r color < 256 := Nat.mod_lt _ (by decide)
theorem target_g_lt (color : Nat) : target_g color < 256 := Nat.mod_lt _ (by decide)
theorem target_b_lt (color : Nat) : target_b color < 256 := Nat.mod_lt _ (by decide)

/-- A fade value never exceeds the channel it scales. -/
theorem scale_le (c i : Nat) (hi : i ≤ LED_FADE_STEPS) : c * i / LED_FADE_STEPS ≤ c := by
  unfold LED_FADE_STEPS at *
  apply Nat.div_le_of_le_mul
  nlinarith

theorem scale_mod (c i : Nat) (hc : c < 256) (hi : i ≤ LED_FADE_STEPS) :
    c * i / LED_FADE_STEPS % 256 = c * i / LED_FADE_STEPS :=
  Nat.mod_eq_of_lt (lt_of_le_of_lt (scale_le c i hi) hc)

theorem scale_full (c : Nat) : c * LED_FADE_STEPS / LED_FADE_STEPS = c := by
  unfold LED_FADE_STEPS; omega

theorem scale_mono (c : Nat) {i j : Nat} (h : i ≤ j) :
    c * i / LED_FADE_STEPS ≤ c * j / LED_FADE_STEPS :=
  Nat.div_le_div_right (Nat.mul_le_mul_left c h)

theorem writtenColors_frame (r g b : Nat) (rest : List Event) :
    writtenColors (frame r g b ++ rest) = (r, g, b) :: writtenColors rest := by
  simp [frame, writtenColors]


theorem fadeLog_append (tr tg tb : Nat) (l₁ l₂ : List Nat) :
    fadeLog tr tg tb (l₁ ++ l₂) = fadeLog tr tg tb l₁ ++ fadeLog tr tg tb l₂ := by
  simp [fadeLog]

theorem writtenColors_fadeLog (tr tg tb : Nat) (l : List Nat) :
    writtenColors (fadeLog tr tg tb l) =
      l.map fun i =>
        (tr * i / LED_FADE_STEPS, tg * i / LED_FADE_STEPS, tb * i / LED_FADE_STEPS) := by
  induction l with
  | nil => simp [fadeLog, writtenColors]
  | cons i l ih =>
    have h : fadeLog tr tg tb (i :: l) =
        frame (tr * i / LED_FADE_STEPS) (tg * i / LED_FADE_STEPS) (tb * i / LED_FADE_STEPS)
          ++ fadeLog tr tg tb l := by
      simp [fadeLog]
    rw [h, writtenColors_frame, ih]
    simp

theorem rgb_set_color_step_eq (tr tg tb : Nat) (s : State) (i : Nat)
    (hr : tr < 256) (hg : tg < 256) (hb : tb < 256) (hi : i ≤ LED_FADE_STEPS) :
    rgb_set_color_step tr tg tb s i =
      { s with
        current_r := tr * i / LED_FADE_STEPS
        current_g := tg * i / LED_FADE_STEPS
        current_b := tb * i / LED_FADE_STEPS
        now := s.now + LED_FADE_DELAY_MS
        log := s.log ++ fadeLog tr tg tb [i] } := by
  simp [rgb_set_color_step, set_led_brightness, led_set_brightness, k_msleep, fadeLog, frame,
    rgb_led_id, RED_LED, GREEN_LED, BLUE_LED, scale_mod, hr, hg, hb, hi]

theorem rgb_set_color_fold (tr tg tb : Nat) (hr : tr < 256) (hg : tg < 256) (hb : tb < 256)
    (n : Nat) (hn : n ≤ LED_FADE_STEPS) (s : State) :
    (List.range (n + 1)).foldl (rgb_set_color_step tr tg tb) s =
      { s with
        current_r := tr * n / LED_FADE_STEPS
        current_g := tg * n / LED_FADE_STEPS
        current_b := tb * n / LED_FADE_STEPS
        now := s.now + LED_FADE_DELAY_MS * (n + 1)
        log := s.log ++ fadeLog tr tg tb (List.range (n + 1)) } := by
  induction n with
  | zero =>
    have h : List.range (0 + 1) = [0] := rfl
    rw [h, List.foldl_cons, List.foldl_nil, rgb_set_color_step_eq _ _ _ _ _ hr hg hb hn]
    simp
  | succ n ih =>
    rw [List.range_succ, List.foldl_append, ih (by omega)]
    simp only [List.foldl_cons, List.foldl_nil]
    rw [rgb_set_color_step_eq _ _ _ _ _ hr hg hb hn, fadeLog_append]
    simp [Nat.mul_add, Nat.add_assoc]
    ring

theorem fade_down_step_eq (s : State) (i : Nat)
    (hr : s.current_r < 256) (hg : s.current_g < 256) (hb : s.current_b < 256)
    (hi : i ≤ LED_FADE_STEPS) :
    fade_down_step s i =
      { s with
        now := s.now + LED_FADE_DELAY_MS
        log := s.log ++ fadeLog s.current_r s.current_g s.current_b [i] } := by
  simp [fade_down_step, set_led_brightness, led_set_brightness, k_msleep, fadeLog, frame,
    rgb_led_id, RED_LED, GREEN_LED, BLUE_LED, scale_mod, hr, hg, hb, hi]

theorem fade_down_fold (l : List Nat) (hl : ∀ i ∈ l, i ≤ LED_FADE_STEPS) (s : State)
    (hr : s.current_r < 256) (hg : s.current_g < 256) (hb : s.current_b < 256) :
    l.foldl fade_down_step s =
      { s with
        now := s.now + LED_FADE_DELAY_MS * l.length
        log := s.log ++ fadeLog s.current_r s.current_g s.current_b l } := by
  induction l generalizing s with
  | nil => simp [fadeLog]
  | cons i l ih =>
    have hi : i ≤ LED_FADE_STEPS := hl i (by simp)
    have hl2 : ∀ j ∈ l, j ≤ LED_FADE_STEPS := fun j hj => hl j (by simp [hj])
    have h : fadeLog s.current_r s.current_g s.current_b (i :: l) =
        fadeLog s.current_r s.current_g s.current_b [i] ++
          fadeLog s.current_r s.current_g s.current_b l := by
      rw [← fadeLog_append]; rfl
    rw [List.foldl_cons, fade_down_step_eq s i hr hg hb hi, ih hl2 _ (by exact hr) (by exact hg)
      (by exact hb), h]
    simp [Nat.mul_add, Nat.add_assoc]
    ring


/-! ## The renderer, call by call -/

theorem emitted_of_log (f : State → State) (s : State) (l : List Event)
    (h : (f s).log = s.log ++ l) : emitted f s = l := by
  simp [emitted, h]

theorem rgb_set_color_same (color : Nat) (s : State)
    (h : target_r color = s.current_r ∧ target_g color = s.current_g ∧
      target_b color = s.current_b) :
    rgb_set_color color s = s := by
  simp [rgb_set_color, h]

theorem rgb_set_color_fade (color : Nat) (s : State)
    (h : ¬ (target_r color = s.current_r ∧ target_g color = s.current_g ∧
      target_b color = s.current_b)) :
    rgb_set_color color s =
      { s with
        current_r := target_r color
        current_g := target_g color
        current_b := target_b color
        now := s.now + LED_FADE_DELAY_MS * (LED_FADE_STEPS + 1)
        log := s.log ++ fadeLog (target_r color) (target_g color) (target_b color)
          (List.range (LED_FADE_STEPS + 1)) } := by
  rw [rgb_set_color, if_neg h,
    rgb_set_color_fold _ _ _ (target_r_lt color) (target_g_lt color) (target_b_lt color)
      LED_FADE_STEPS (le_refl _) s]
  simp [scale_full]

theorem turn_off_all_leds_dark (s : State)
    (h : s.current_r = 0 ∧ s.current_g = 0 ∧ s.current_b = 0) :
    turn_off_all_leds s =
      { s with log := s.log ++ [Event.led_off 0, Event.led_off 1, Event.led_off 2] } := by
  rw [turn_off_all_leds, if_pos h]
  simp [LED_COUNT, List.range_succ, turn_off_step, led_off, rgb_led_id]

theorem turn_off_all_leds_lit (s : State)
    (hr : s.current_r < 256) (hg : s.current_g < 256) (hb : s.current_b < 256)
    (h : ¬ (s.current_r = 0 ∧ s.current_g = 0 ∧ s.current_b = 0)) :
    turn_off_all_leds s =
      { s with
        current_r := 0
        current_g := 0
        current_b := 0
        now := s.now + LED_FADE_DELAY_MS * (LED_FADE_STEPS + 1)
        log := s.log ++ fadeLog s.current_r s.current_g s.current_b
          (List.range (LED_FADE_STEPS + 1)).reverse } := by
  have hl : ∀ i ∈ (List.range (LED_FADE_STEPS + 1)).reverse, i ≤ LED_FADE_STEPS := by
    intro i hi
    rw [List.mem_reverse, List.mem_range] at hi
    omega
  rw [turn_off_all_leds, if_neg h]
  simp only []
  rw [fade_down_fold _ hl s hr hg hb]
  simp

theorem emitted_rgb_set_color_fade (color : Nat) (s : State)
    (h : ¬ (target_r color = s.current_r ∧ target_g color = s.current_g ∧
      target_b color = s.current_b)) :
    emitted (rgb_set_color color) s =
      fadeLog (target_r color) (target_g color) (target_b color)
        (List.range (LED_FADE_STEPS + 1)) :=
  emitted_of_log (rgb_set_color color) s
    (fadeLog (target_r color) (target_g color) (target_b color)
      (List.range (LED_FADE_STEPS + 1)))
    (congrArg State.log (rgb_set_color_fade color s h))

theorem emitted_turn_off_all_leds_lit (s : State)
    (hr : s.current_r < 256) (hg : s.current_g < 256) (hb : s.current_b < 256)
    (h : ¬ (s.current_r = 0 ∧ s.current_g = 0 ∧ s.current_b = 0)) :
    emitted turn_off_all_leds s =
      fadeLog s.current_r s.current_g s.current_b
        (List.range (LED_FADE_STEPS + 1)).reverse :=
  emitted_of_log turn_off_all_leds s
    (fadeLog s.current_r s.current_g s.current_b (List.range (LED_FADE_STEPS + 1)).reverse)
    (congrArg State.log (turn_off_all_leds_lit s hr hg hb h))

theorem emitted_turn_off_all_leds_dark (s : State)
    (h : s.current_r = 0 ∧ s.current_g = 0 ∧ s.current_b = 0) :
    emitted turn_off_all_leds s = [Event.led_off 0, Event.led_off 1, Event.led_off 2] :=
  emitted_of_log turn_off_all_leds s [Event.led_off 0, Event.led_off 1, Event.led_off 2]
    (congrArg State.log (turn_off_all_leds_dark s h))

theorem emitted_rgb_set_color_same (color : Nat) (s : State)
    (h : target_r color = s.current_r ∧ target_g color = s.current_g ∧
      target_b color = s.current_b) :
    emitted (rgb_set_color color) s = [] :=
  emitted_of_log (rgb_set_color color) s []
    (by rw [rgb_set_color_same color s h, List.append_nil])

/-- The colours of a fade over `0, ..., LED_FADE_STEPS` towards `(r, g, b)`. -/
theorem fade_colors_up (r g b : Nat) :
    let cols := (List.range (LED_FADE_STEPS + 1)).map fun i =>
      (r * i / LED_FADE_STEPS, g * i / LED_FADE_STEPS, b * i / LED_FADE_STEPS)
    cols.length = LED_FADE_STEPS + 1 ∧ cols.head? = some (0, 0, 0) ∧
      cols.getLast? = some (r, g, b) ∧
      List.Sorted (fun x y => x ≤ y) (cols.map fun c => c.1) ∧
      List.Sorted (fun x y => x ≤ y) (cols.map fun c => c.2.1) ∧
      List.Sorted (fun x y => x ≤ y) (cols.map fun c => c.2.2) := by
  intro cols
  refine ⟨by simp [cols], ?_, ?_, ?_, ?_, ?_⟩
  · simp [cols, List.range_succ_eq_map]
  · simp [cols, List.range_succ, scale_full]
  all_goals
    simp only [cols, List.map_map, List.Sorted]
    exact List.Pairwise.map _ (fun i j hij => scale_mono _ hij) (List.pairwise_le_range _)

/-- The colours of a fade over `LED_FADE_STEPS, ..., 0` away from `(r, g, b)`. -/
theorem fade_colors_down (r g b : Nat) :
    let cols := (List.range (LED_FADE_STEPS + 1)).reverse.map fun i =>
      (r * i / LED_FADE_STEPS, g * i / LED_FADE_STEPS, b * i / LED_FADE_STEPS)
    cols.length = LED_FADE_STEPS + 1 ∧ cols.head? = some (r, g, b) ∧
      cols.getLast? = some (0, 0, 0) ∧
      List.Sorted (fun x y => x ≥ y) (cols.map fun c => c.1) ∧
      List.Sorted (fun x y => x ≥ y) (cols.map fun c => c.2.1) ∧
      List.Sorted (fun x y => x ≥ y) (cols.map fun c => c.2.2) := by
  intro cols
  refine ⟨by simp [cols], ?_, ?_, ?_, ?_, ?_⟩
  · simp [cols, List.range_succ, scale_full]
  · simp [cols, List.range_succ_eq_map]
  all_goals
    simp only [cols, List.map_map, List.Sorted]
    exact List.Pairwise.map _ (fun i j hij => scale_mono _ hij)
      (List.pairwise_reverse.2 (List.pairwise_le_range _))

/-! ## What the renderer leaves alone -/

theorem sameGlobals_refl (s : State) : sameGlobals s s := ⟨rfl, rfl, rfl, rfl⟩

theorem sameGlobals_trans {s t u : State} (h1 : sameGlobals s t) (h2 : sameGlobals t u) :
    sameGlobals s u :=
  ⟨h2.1.trans h1.1, h2.2.1.trans h1.2.1, h2.2.2.1.trans h1.2.2.1, h2.2.2.2.trans h1.2.2.2⟩

theorem sameGlobals_foldl (step : State → Nat → State)
    (hstep : ∀ a i, sameGlobals a (step a i)) (l : List Nat) (s : State) :
    sameGlobals s (l.foldl step s) := by
  induction l generalizing s with
  | nil => exact sameGlobals_refl s
  | cons i l ih => exact sameGlobals_trans (hstep s i) (ih (step s i))

theorem sameGlobals_k_msleep (ms : Int) (s : State) : sameGlobals s (k_msleep ms s) :=
  ⟨rfl, rfl, rfl, rfl⟩

theorem sameGlobals_rgb_set_color_step (tr tg tb : Nat) (s : State) (i : Nat) :
    sameGlobals s (rgb_set_color_step tr tg tb s i) :=
  ⟨rfl, rfl, rfl, rfl⟩

theorem sameGlobals_fade_down_step (s : State) (i : Nat) :
    sameGlobals s (fade_down_step s i) :=
  ⟨rfl, rfl, rfl, rfl⟩

theorem sameGlobals_turn_off_step (s : State) (i : Nat) :
    sameGlobals s (turn_off_step s i) :=
  ⟨rfl, rfl, rfl, rfl⟩

theorem sameGlobals_set_channels (s : State) (r g b : Nat) :
    sameGlobals s { s with current_r := r, current_g := g, current_b := b } :=
  ⟨rfl, rfl, rfl, rfl⟩

theorem sameGlobals_rgb_set_color (color : Nat) (s : State) :
    sameGlobals s (rgb_set_color color s) := by
  unfold rgb_set_color
  split
  · exact sameGlobals_refl s
  · exact sameGlobals_foldl (rgb_set_color_step (target_r color) (target_g color)
      (target_b color)) (sameGlobals_rgb_set_color_step _ _ _) _ s

theorem sameGlobals_turn_off_all_leds (s : State) :
    sameGlobals s (turn_off_all_leds s) := by
  unfold turn_off_all_leds
  split
  · exact sameGlobals_foldl turn_off_step sameGlobals_turn_off_step _ s
  · exact sameGlobals_trans
      (sameGlobals_foldl fade_down_step sameGlobals_fade_down_step _ s)
      (sameGlobals_set_channels _ 0 0 0)

theorem sameGlobals_rgb_blink_with_color (color delay_ms : Nat) (count : Int) (s : State) :
    sameGlobals s (rgb_blink_with_color color delay_ms count s) := by
  unfold rgb_blink_with_color
  refine sameGlobals_foldl _ (fun a i => ?_) _ s
  exact sameGlobals_trans (sameGlobals_rgb_set_color color a)
    (sameGlobals_trans (sameGlobals_k_msleep _ _)
      (sameGlobals_trans (sameGlobals_turn_off_all_leds _) (sameGlobals_k_msleep _ _)))

/-! ## The blink sequencer, pair by pair -/

theorem int32_of_uint32_small (v : Nat) (h : v < 2 ^ 31) : int32_of_uint32 v = (v : Int) := by
  have h1 : v % 2 ^ 32 = v := Nat.mod_eq_of_lt (by omega)
  unfold int32_of_uint32
  rw [h1, if_pos h]

theorem pair_spec (color : Nat) (d : Int) (s : State)
    (hr : s.current_r < 256) (hg : s.current_g < 256) (hb : s.current_b < 256) :
    (k_msleep d (turn_off_all_leds (k_msleep d (rgb_set_color color s)))).log =
      s.log ++ (emitted (rgb_set_color color) s ++ [Event.k_msleep d] ++
        emitted turn_off_all_leds (k_msleep d (rgb_set_color color s)) ++
        [Event.k_msleep d]) ∧
    (k_msleep d (turn_off_all_leds (k_msleep d (rgb_set_color color s)))).current_r = 0 ∧
    (k_msleep d (turn_off_all_leds (k_msleep d (rgb_set_color color s)))).current_g = 0 ∧
    (k_msleep d (turn_off_all_leds (k_msleep d (rgb_set_color color s)))).current_b = 0 ∧
    sameGlobals s (k_msleep d (turn_off_all_leds (k_msleep d (rgb_set_color color s)))) ∧
    (k_msleep d (rgb_set_color color s)).current_r < 256 ∧
    (k_msleep d (rgb_set_color color s)).current_g < 256 ∧
    (k_msleep d (rgb_set_color color s)).current_b < 256 := by
  -- the state after the render and the first sleep
  have h1 : (k_msleep d (rgb_set_color color s)).log =
        s.log ++ (emitted (rgb_set_color color) s ++ [Event.k_msleep d]) ∧
      (k_msleep d (rgb_set_color color s)).current_r < 256 ∧
      (k_msleep d (rgb_set_color color s)).current_g < 256 ∧
      (k_msleep d (rgb_set_color color s)).current_b < 256 ∧
      sameGlobals s (k_msleep d (rgb_set_color color s)) := by
    by_cases hc : target_r color = s.current_r ∧ target_g color = s.current_g ∧
        target_b color = s.current_b
    · rw [emitted_rgb_set_color_same color s hc, rgb_set_color_same color s hc]
      simp [k_msleep, sameGlobals, hr, hg, hb]
    · rw [emitted_rgb_set_color_fade color s hc, rgb_set_color_fade color s hc]
      simp [k_msleep, sameGlobals, target_r_lt, target_g_lt, target_b_lt]
  obtain ⟨hlog, hr1, hg1, hb1, hsame⟩ := h1
  have h2 : ∀ t : State, t.current_r < 256 → t.current_g < 256 → t.current_b < 256 →
      (turn_off_all_leds t).log = t.log ++ emitted turn_off_all_leds t ∧
      (turn_off_all_leds t).current_r = 0 ∧ (turn_off_all_leds t).current_g = 0 ∧
      (turn_off_all_leds t).current_b = 0 ∧ sameGlobals t (turn_off_all_leds t) := by
    intro t htr htg htb
    by_cases hz : t.current_r = 0 ∧ t.current_g = 0 ∧ t.current_b = 0
    · rw [emitted_turn_off_all_leds_dark t hz, turn_off_all_leds_dark t hz]
      simp [sameGlobals, hz]
    · rw [emitted_turn_off_all_leds_lit t htr htg htb hz, turn_off_all_leds_lit t htr htg htb hz]
      simp [sameGlobals]
  obtain ⟨hlog2, hr2, hg2, hb2, hsame2⟩ := h2 _ hr1 hg1 hb1
  refine ⟨?_, hr2, hg2, hb2, ?_, hr1, hg1, hb1⟩
  · show (turn_off_all_leds (k_msleep d (rgb_set_color color s))).log ++ [Event.k_msleep d] = _
    rw [hlog2, hlog]
    simp
  · exact sameGlobals_trans hsame (sameGlobals_trans hsame2 (sameGlobals_k_msleep _ _))

theorem rgb_blink_step_spec (color delay_ms : Nat) (s : State) (i : Nat)
    (hr : s.current_r < 256) (hg : s.current_g < 256) (hb : s.current_b < 256) :
    (rgb_blink_step color delay_ms s i).log = s.log ++ pairLog color delay_ms s ∧
    (rgb_blink_step color delay_ms s i).current_r = 0 ∧
    (rgb_blink_step color delay_ms s i).current_g = 0 ∧
    (rgb_blink_step color delay_ms s i).current_b = 0 ∧
    sameGlobals s (rgb_blink_step color delay_ms s i) := by
  obtain ⟨h1, h2, h3, h4, h5, -, -, -⟩ :=
    pair_spec color (int32_of_uint32 delay_ms) s hr hg hb
  exact ⟨h1, h2, h3, h4, h5⟩

theorem count_sleep_fadeLog (x : Int) (r g b : Nat) (l : List Nat) :
    (fadeLog r g b l).count (Event.k_msleep x) =
      if x = (LED_FADE_DELAY_MS : Int) then l.length else 0 := by
  induction l with
  | nil => simp [fadeLog]
  | cons i l ih =>
    have h : fadeLog r g b (i :: l) = fadeLog r g b [i] ++ fadeLog r g b l := by
      rw [← fadeLog_append]; rfl
    rw [h, List.count_append, ih]
    by_cases hx : x = (LED_FADE_DELAY_MS : Int)
    · simp [fadeLog, frame, List.count_cons, hx]
      omega
    · have hx2 : ¬ ((LED_FADE_DELAY_MS : Int) = x) := fun h => hx h.symm
      simp [fadeLog, frame, List.count_cons, hx, hx2]

theorem sleepCount_fadeLog (r g b : Nat) (l : List Nat) :
    sleepCount (fadeLog r g b l) = l.length := by
  induction l with
  | nil => simp [fadeLog, sleepCount]
  | cons i l ih =>
    have h : fadeLog r g b (i :: l) = fadeLog r g b [i] ++ fadeLog r g b l := by
      rw [← fadeLog_append]; rfl
    unfold sleepCount at ih ⊢
    rw [h, List.countP_append, ih]
    simp [fadeLog, frame, List.countP_cons, Event.isSleep]
    omega

/-- Every sleep the renderer makes on its own has the length of the fade
delay. -/
theorem count_sleep_emitted_rgb_set_color (x : Int) (color : Nat) (s : State) :
    (emitted (rgb_set_color color) s).count (Event.k_msleep x) =
      if x = (LED_FADE_DELAY_MS : Int) then sleepCount (emitted (rgb_set_color color) s)
      else 0 := by
  by_cases hc : target_r color = s.current_r ∧ target_g color = s.current_g ∧
      target_b color = s.current_b
  · rw [emitted_rgb_set_color_same color s hc]
    simp [sleepCount]
  · rw [emitted_rgb_set_color_fade color s hc, count_sleep_fadeLog, sleepCount_fadeLog]

theorem count_sleep_emitted_turn_off_all_leds (x : Int) (t : State)
    (hr : t.current_r < 256) (hg : t.current_g < 256) (hb : t.current_b < 256) :
    (emitted turn_off_all_leds t).count (Event.k_msleep x) =
      if x = (LED_FADE_DELAY_MS : Int) then sleepCount (emitted turn_off_all_leds t)
      else 0 := by
  by_cases hz : t.current_r = 0 ∧ t.current_g = 0 ∧ t.current_b = 0
  · rw [emitted_turn_off_all_leds_dark t hz]
    simp [sleepCount, List.count_cons, List.countP_cons, Event.isSleep]
  · rw [emitted_turn_off_all_leds_lit t hr hg hb hz, count_sleep_fadeLog, sleepCount_fadeLog]

theorem count_sleep_pairLog_any (x : Int) (color delay_ms : Nat) (s : State)
    (hr : s.current_r < 256) (hg : s.current_g < 256) (hb : s.current_b < 256) :
    (pairLog color delay_ms s).count (Event.k_msleep x) =
      (if x = int32_of_uint32 delay_ms then 2 else 0) +
      (if x = (LED_FADE_DELAY_MS : Int) then fadeSleeps color delay_ms s else 0) := by
  obtain ⟨-, -, -, -, -, h1, h2, h3⟩ :=
    pair_spec color (int32_of_uint32 delay_ms) s hr hg hb
  have hA := count_sleep_emitted_rgb_set_color x color s
  have hB := count_sleep_emitted_turn_off_all_leds x _ h1 h2 h3
  have hC : [Event.k_msleep (int32_of_uint32 delay_ms)].count (Event.k_msleep x) =
      if x = int32_of_uint32 delay_ms then 1 else 0 := by
    by_cases h : x = int32_of_uint32 delay_ms
    · simp [h]
    · have h2 : ¬ (int32_of_uint32 delay_ms = x) := fun e => h e.symm
      simp [List.count_cons, h, h2]
  unfold pairLog fadeSleeps
  rw [List.count_append, List.count_append, List.count_append, hA, hB, hC]
  generalize sleepCount (emitted (rgb_set_color color) s) = a
  generalize sleepCount (emitted turn_off_all_leds
    (k_msleep (int32_of_uint32 delay_ms) (rgb_set_color color s))) = b
  split_ifs <;> omega

theorem sleepCount_pairLog (color d : Nat) (s : State) :
    sleepCount (pairLog color d s) = 2 + fadeSleeps color d s := by
  simp only [sleepCount, pairLog, fadeSleeps, List.countP_append]
  simp [List.countP_cons, Event.isSleep]
  omega

theorem rgb_blink_fold_spec (color delay_ms : Nat) (s : State)
    (hr : s.current_r < 256) (hg : s.current_g < 256) (hb : s.current_b < 256) (n : Nat) :
    ((List.range n).foldl (rgb_blink_step color delay_ms) s).log =
      s.log ++ (List.range n).flatMap (fun k =>
        pairLog color delay_ms ((List.range k).foldl (rgb_blink_step color delay_ms) s)) ∧
    ((List.range n).foldl (rgb_blink_step color delay_ms) s).current_r < 256 ∧
    ((List.range n).foldl (rgb_blink_step color delay_ms) s).current_g < 256 ∧
    ((List.range n).foldl (rgb_blink_step color delay_ms) s).current_b < 256 ∧
    (0 < n → ((List.range n).foldl (rgb_blink_step color delay_ms) s).displayed = (0, 0, 0)) ∧
    sameGlobals s ((List.range n).foldl (rgb_blink_step color delay_ms) s) := by
  induction n with
  | zero => simp [sameGlobals, hr, hg, hb]
  | succ n ih =>
    obtain ⟨ihlog, ihr, ihg, ihb, -, ihs⟩ := ih
    obtain ⟨hlog, h0r, h0g, h0b, hs⟩ := rgb_blink_step_spec color delay_ms
      ((List.range n).foldl (rgb_blink_step color delay_ms) s) n ihr ihg ihb
    rw [List.range_succ, List.foldl_append]
    simp only [List.foldl_cons, List.foldl_nil, List.flatMap_append, List.flatMap_cons,
      List.flatMap_nil, List.append_nil]
    refine ⟨?_, by rw [h0r]; decide, by rw [h0g]; decide, by rw [h0b]; decide, ?_, ?_⟩
    · rw [hlog, ihlog, List.append_assoc]
    · intro _
      simp [State.displayed, h0r, h0g, h0b]
    · unfold sameGlobals at ihs hs ⊢
      exact ⟨hs.1.trans ihs.1, hs.2.1.trans ihs.2.1, hs.2.2.1.trans ihs.2.2.1,
        hs.2.2.2.trans ihs.2.2.2⟩

theorem rgb_blink_with_color_natCast (color delay_ms : Nat) (k : Nat) (s : State) :
    rgb_blink_with_color color delay_ms (k : Int) s =
      (List.range k).foldl (rgb_blink_step color delay_ms) s := by
  simp [rgb_blink_with_color]

theorem emitted_rgb_blink (color delay_ms : Nat) (n : Nat) (s : State)
    (hr : s.current_r < 256) (hg : s.current_g < 256) (hb : s.current_b < 256) :
    emitted (fun t => (List.range n).foldl (rgb_blink_step color delay_ms) t) s =
      (List.range n).flatMap (fun k =>
        pairLog color delay_ms ((List.range k).foldl (rgb_blink_step color delay_ms) s)) :=
  emitted_of_log (fun t => (List.range n).foldl (rgb_blink_step color delay_ms) t) s
    ((List.range n).flatMap (fun k =>
      pairLog color delay_ms ((List.range k).foldl (rgb_blink_step color delay_ms) s)))
    (rgb_blink_fold_spec color delay_ms s hr hg hb n).1

theorem sleepCount_pairs (color delay_ms : Nat) (s : State) (n : Nat) :
    sleepCount ((List.range n).flatMap (fun k =>
        pairLog color delay_ms ((List.range k).foldl (rgb_blink_step color delay_ms) s))) =
      2 * n + ((List.range n).map (fun k =>
        fadeSleeps color delay_ms
          ((List.range k).foldl (rgb_blink_step color delay_ms) s))).sum := by
  induction n with
  | zero => simp [sleepCount]
  | succ n ih =>
    rw [List.range_succ, List.flatMap_append, List.map_append, List.sum_append]
    have happ : ∀ a b : List Event, sleepCount (a ++ b) = sleepCount a + sleepCount b := by
      intro a b; simp [sleepCount]
    rw [happ, ih]
    simp only [List.flatMap_cons, List.flatMap_nil, List.append_nil, List.map_cons,
      List.map_nil, List.sum_cons, List.sum_nil, sleepCount_pairLog]
    omega

theorem count_sleep_pairs_any (x : Int) (color delay_ms : Nat) (s : State)
    (hr : s.current_r < 256) (hg : s.current_g < 256) (hb : s.current_b < 256) (n : Nat) :
    ((List.range n).flatMap (fun k =>
        pairLog color delay_ms
          ((List.range k).foldl (rgb_blink_step color delay_ms) s))).count
      (Event.k_msleep x) =
      (if x = int32_of_uint32 delay_ms then 2 * n else 0) +
      (if x = (LED_FADE_DELAY_MS : Int) then
        ((List.range n).map (fun k =>
          fadeSleeps color delay_ms
            ((List.range k).foldl (rgb_blink_step color delay_ms) s))).sum
      else 0) := by
  induction n with
  | zero => simp
  | succ n ih =>
    obtain ⟨-, ihr, ihg, ihb, -, -⟩ := rgb_blink_fold_spec color delay_ms s hr hg hb n
    rw [List.range_succ, List.flatMap_append, List.count_append, ih, List.map_append,
      List.sum_append]
    simp only [List.flatMap_cons, List.flatMap_nil, List.append_nil, List.map_cons,
      List.map_nil, List.sum_cons, List.sum_nil]
    rw [count_sleep_pairLog_any x color delay_ms _ ihr ihg ihb]
    split_ifs <;> omega

theorem count_sleep_pairs (color delay_ms : Nat) (s : State)
    (hr : s.current_r < 256) (hg : s.current_g < 256) (hb : s.current_b < 256)
    (hd : int32_of_uint32 delay_ms ≠ (LED_FADE_DELAY_MS : Int)) (n : Nat) :
    ((List.range n).flatMap (fun k =>
        pairLog color delay_ms
          ((List.range k).foldl (rgb_blink_step color delay_ms) s))).count
      (Event.k_msleep (int32_of_uint32 delay_ms)) = 2 * n := by
  rw [count_sleep_pairs_any _ color delay_ms s hr hg hb n, if_pos rfl, if_neg hd]
  rfl

/-! ## Handlers -/

theorem ble_profile_work_handler_armed (s : State) (h : s.is_conn_checking = true) :
    ble_profile_work_handler s =
      rgb_blink_with_color COLOR_BLUE LED_BLINK_PROFILE_DELAY_MS s.profile_blink_count s := by
  have hg := (sameGlobals_rgb_blink_with_color COLOR_BLUE LED_BLINK_PROFILE_DELAY_MS
    s.profile_blink_count s).1
  simp [ble_profile_work_handler, hg, h]

theorem ble_profile_work_handler_idle (s : State) (h : s.is_conn_checking = false) :
    ble_profile_work_handler s =
      k_work_reschedule Work.check_ble_conn_work (K_SECONDS 4)
        { rgb_blink_with_color COLOR_BLUE LED_BLINK_PROFILE_DELAY_MS s.profile_blink_count s
          with is_conn_checking := true } := by
  have hg := (sameGlobals_rgb_blink_with_color COLOR_BLUE LED_BLINK_PROFILE_DELAY_MS
    s.profile_blink_count s).1
  simp [ble_profile_work_handler, hg, h]

/-! ## Colour renderer: `rgb_set_color` -/

/-- C1: from every state and for every target colour, after
`rgb_set_color(T)` the displayed colour `(current_r, current_g, current_b)` is
exactly the red, green and blue channel of `T` (bits 16-23, 8-15 and 0-7), with
`LED_FADE_STEPS = 100`. -/
theorem rgb_set_color_displays_target (color : Nat) (s : State) :
    LED_FADE_STEPS = 100 ∧
    (rgb_set_color color s).displayed = (target_r color, target_g color, target_b color) ∧
    (rgb_set_color color s).displayed =
      (color / 65536 % 256, color / 256 % 256, color % 256) := by
  have h : (rgb_set_color color s).displayed =
      (target_r color, target_g color, target_b color) := by
    by_cases hc : target_r color = s.current_r ∧ target_g color = s.current_g ∧
        target_b color = s.current_b
    · rw [rgb_set_color_same color s hc]
      simp [State.displayed, hc]
    · rw [rgb_set_color_fade color s hc]
      simp [State.displayed]
  refine ⟨rfl, h, ?_⟩
  rw [h, target_r_eq, target_g_eq, target_b_eq]

/-- C2 (as stated, refuted): starting from full red, `rgb_set_color(COLOR_BLUE)`
does not write the start colour first: the first colour written is black. -/
theorem rgb_set_color_first_written_is_not_start :
    litRed.displayed = (255, 0, 0) ∧
    litRed.displayed ≠ (target_r COLOR_BLUE, target_g COLOR_BLUE, target_b COLOR_BLUE) ∧
    (writtenColors (emitted (rgb_set_color COLOR_BLUE) litRed)).head? = some (0, 0, 0) ∧
    (writtenColors (emitted (rgb_set_color COLOR_BLUE) litRed)).head? ≠
      some litRed.displayed := by
  have hne : ¬ (target_r COLOR_BLUE = litRed.current_r ∧
      target_g COLOR_BLUE = litRed.current_g ∧ target_b COLOR_BLUE = litRed.current_b) := by
    decide
  have hlog := emitted_rgb_set_color_fade COLOR_BLUE litRed hne
  have hhead : (writtenColors (emitted (rgb_set_color COLOR_BLUE) litRed)).head? =
      some (0, 0, 0) := by
    rw [hlog, writtenColors_fadeLog]
    exact (fade_colors_up _ _ _).2.1
  refine ⟨rfl, by decide, hhead, ?_⟩
  rw [hhead]
  decide

/-- C2 (amended): when the target differs from the displayed colour,
`rgb_set_color(T)` writes exactly `LED_FADE_STEPS + 1 = 101` colours, the
`i`-th being `T * i / 100` per channel for `i = 0, ..., 100`, each followed by a
sleep of `LED_FADE_DELAY_MS`: the first colour written is black whatever the
start colour is, the last one is `T`, and every channel is non-decreasing. -/
theorem rgb_set_color_fade_sequence (color : Nat) (s : State)
    (h : s.displayed ≠ (target_r color, target_g color, target_b color)) :
    emitted (rgb_set_color color) s =
      fadeLog (target_r color) (target_g color) (target_b color)
        (List.range (LED_FADE_STEPS + 1)) ∧
    writtenColors (emitted (rgb_set_color color) s) =
      (List.range 101).map (fun i =>
        (target_r color * i / 100, target_g color * i / 100, target_b color * i / 100)) ∧
    (writtenColors (emitted (rgb_set_color color) s)).length = 101 ∧
    (writtenColors (emitted (rgb_set_color color) s)).head? = some (0, 0, 0) ∧
    (writtenColors (emitted (rgb_set_color color) s)).getLast? =
      some (target_r color, target_g color, target_b color) ∧
    List.Sorted (fun x y => x ≤ y)
      ((writtenColors (emitted (rgb_set_color color) s)).map fun c => c.1) ∧
    List.Sorted (fun x y => x ≤ y)
      ((writtenColors (emitted (rgb_set_color color) s)).map fun c => c.2.1) ∧
    List.Sorted (fun x y => x ≤ y)
      ((writtenColors (emitted (rgb_set_color color) s)).map fun c => c.2.2) := by
  have hne : ¬ (target_r color = s.current_r ∧ target_g color = s.current_g ∧
      target_b color = s.current_b) := by
    rintro ⟨h1, h2, h3⟩
    exact h (by simp [State.displayed, h1, h2, h3])
  have hlog := emitted_rgb_set_color_fade color s hne
  have hc := fade_colors_up (target_r color) (target_g color) (target_b color)
  rw [hlog, writtenColors_fadeLog]
  exact ⟨rfl, rfl, hc.1, hc.2.1, hc.2.2.1, hc.2.2.2.1, hc.2.2.2.2.1, hc.2.2.2.2.2⟩

/-- Witness of C2 (amended): the fade from full red to blue. -/
theorem rgb_set_color_fade_sequence_witness :
    litRed.displayed ≠ (target_r COLOR_BLUE, target_g COLOR_BLUE, target_b COLOR_BLUE) ∧
    (writtenColors (emitted (rgb_set_color COLOR_BLUE) litRed)).getLast? =
      some (target_r COLOR_BLUE, target_g COLOR_BLUE, target_b COLOR_BLUE) :=
  ⟨by decide, (rgb_set_color_fade_sequence COLOR_BLUE litRed (by decide)).2.2.2.2.1⟩

/-- C3: when the three channels of the target equal the displayed colour,
`rgb_set_color` returns at once: it makes no call at all (no brightness write,
no sleep) and leaves the state, hence the displayed colour, unchanged. -/
theorem rgb_set_color_same_is_noop (color : Nat) (s : State)
    (h : (target_r color, target_g color, target_b color) = s.displayed) :
    emitted (rgb_set_color color) s = [] ∧
    (rgb_set_color color s).displayed = s.displayed ∧
    rgb_set_color color s = s := by
  have hc : target_r color = s.current_r ∧ target_g color = s.current_g ∧
      target_b color = s.current_b := by
    simpa [State.displayed] using h
  have hs := rgb_set_color_same color s hc
  exact ⟨emitted_rgb_set_color_same color s hc, by rw [hs], hs⟩

/-- Witness of C3: red requested while red is displayed. -/
theorem rgb_set_color_same_is_noop_witness :
    (target_r COLOR_RED, target_g COLOR_RED, target_b COLOR_RED) = litRed.displayed ∧
    emitted (rgb_set_color COLOR_RED) litRed = [] :=
  ⟨by decide, (rgb_set_color_same_is_noop COLOR_RED litRed (by decide)).1⟩

/-! ## Colour renderer: `turn_off_all_leds` -/

/-- C4: when the displayed colour is all-zero, `turn_off_all_leds` makes
exactly three calls, `led_off` on the channel ids 0, 1, 2 in this order: no
brightness write and no sleep (the clock does not move), and the displayed
colour stays all-zero. -/
theorem turn_off_all_leds_when_off (s : State) (h : s.displayed = (0, 0, 0)) :
    emitted turn_off_all_leds s = [Event.led_off 0, Event.led_off 1, Event.led_off 2] ∧
    (turn_off_all_leds s).displayed = (0, 0, 0) ∧
    (turn_off_all_leds s).now = s.now ∧
    turn_off_all_leds s =
      { s with log := s.log ++ [Event.led_off 0, Event.led_off 1, Event.led_off 2] } := by
  have hc : s.current_r = 0 ∧ s.current_g = 0 ∧ s.current_b = 0 := by
    simpa [State.displayed] using h
  have hs := turn_off_all_leds_dark s hc
  refine ⟨emitted_turn_off_all_leds_dark s hc, ?_, by rw [hs], hs⟩
  rw [hs]
  simpa [State.displayed] using hc

/-- Witness of C4: extinguishing right after boot. -/
theorem turn_off_all_leds_when_off_witness :
    State.boot.displayed = (0, 0, 0) ∧
    emitted turn_off_all_leds State.boot =
      [Event.led_off 0, Event.led_off 1, Event.led_off 2] :=
  ⟨rfl, (turn_off_all_leds_when_off State.boot rfl).1⟩

/-- C5: from a lit colour `C` (8-bit channels, not all zero),
`turn_off_all_leds` writes exactly `LED_FADE_STEPS + 1 = 101` colours, the
colour `C * i / 100` per channel for `i = 100, 99, ..., 0`, each followed by a
sleep of `LED_FADE_DELAY_MS`: the first colour written is `C`, every channel is
non-increasing, the last colour written is all-zero, and afterwards the
displayed colour is all-zero. -/
theorem turn_off_all_leds_fades_down (s : State)
    (hr : s.current_r < 256) (hg : s.current_g < 256) (hb : s.current_b < 256)
    (h : s.displayed ≠ (0, 0, 0)) :
    emitted turn_off_all_leds s =
      fadeLog s.current_r s.current_g s.current_b (List.range (LED_FADE_STEPS + 1)).reverse ∧
    writtenColors (emitted turn_off_all_leds s) =
      (List.range 101).reverse.map (fun i =>
        (s.current_r * i / 100, s.current_g * i / 100, s.current_b * i / 100)) ∧
    (writtenColors (emitted turn_off_all_leds s)).length = 101 ∧
    (writtenColors (emitted turn_off_all_leds s)).head? = some s.displayed ∧
    (writtenColors (emitted turn_off_all_leds s)).getLast? = some (0, 0, 0) ∧
    List.Sorted (fun x y => x ≥ y)
      ((writtenColors (emitted turn_off_all_leds s)).map fun c => c.1) ∧
    List.Sorted (fun x y => x ≥ y)
      ((writtenColors (emitted turn_off_all_leds s)).map fun c => c.2.1) ∧
    List.Sorted (fun x y => x ≥ y)
      ((writtenColors (emitted turn_off_all_leds s)).map fun c => c.2.2) ∧
    (turn_off_all_leds s).displayed = (0, 0, 0) := by
  have hne : ¬ (s.current_r = 0 ∧ s.current_g = 0 ∧ s.current_b = 0) := by
    rintro ⟨h1, h2, h3⟩
    exact h (by simp [State.displayed, h1, h2, h3])
  have hs := turn_off_all_leds_lit s hr hg hb hne
  have hlog := emitted_turn_off_all_leds_lit s hr hg hb hne
  have hc := fade_colors_down s.current_r s.current_g s.current_b
  rw [hlog, writtenColors_fadeLog, hs]
  exact ⟨rfl, rfl, hc.1, hc.2.1, hc.2.2.1, hc.2.2.2.1, hc.2.2.2.2.1, hc.2.2.2.2.2, rfl⟩

/-- Witness of C5: fading down from yellow. -/
theorem turn_off_all_leds_fades_down_witness :
    litYellow.displayed ≠ (0, 0, 0) ∧
    (writtenColors (emitted turn_off_all_leds litYellow)).head? = some (255, 255, 0) ∧
    (turn_off_all_leds litYellow).displayed = (0, 0, 0) :=
  ⟨by decide,
    (turn_off_all_leds_fades_down litYellow (by decide) (by decide) (by decide)
      (by decide)).2.2.2.1,
    (turn_off_all_leds_fades_down litYellow (by decide) (by decide) (by decide)
      (by decide)).2.2.2.2.2.2.2.2⟩

/-! ## Blink sequencer: `rgb_blink_with_color` -/

theorem count_sleep_emitted_blink (x : Int) (color delay_ms : Nat) (count : Int) (s : State)
    (hr : s.current_r < 256) (hg : s.current_g < 256) (hb : s.current_b < 256) :
    (emitted (rgb_blink_with_color color delay_ms count) s).count (Event.k_msleep x) =
      (if x = int32_of_uint32 delay_ms then 2 * count.toNat else 0) +
      (if x = (LED_FADE_DELAY_MS : Int) then
        ((List.range count.toNat).map (fun (k : Nat) =>
          fadeSleeps color delay_ms (rgb_blink_with_color color delay_ms (k : Int) s))).sum
      else 0) := by
  simp only [rgb_blink_with_color_natCast]
  have h := emitted_rgb_blink color delay_ms count.toNat s hr hg hb
  have hf : rgb_blink_with_color color delay_ms count =
      fun t => (List.range count.toNat).foldl (rgb_blink_step color delay_ms) t := rfl
  rw [hf, h]
  exact count_sleep_pairs_any x color delay_ms s hr hg hb count.toNat

theorem fadeSleeps_red_boot (delay_ms : Nat) :
    fadeSleeps COLOR_RED delay_ms State.boot = 202 := by
  have hne : ¬ (target_r COLOR_RED = State.boot.current_r ∧
      target_g COLOR_RED = State.boot.current_g ∧
      target_b COLOR_RED = State.boot.current_b) := by decide
  have hs := rgb_set_color_fade COLOR_RED State.boot hne
  have hr : (k_msleep (int32_of_uint32 delay_ms)
      (rgb_set_color COLOR_RED State.boot)).current_r = 255 := by rw [hs]; rfl
  have hg : (k_msleep (int32_of_uint32 delay_ms)
      (rgb_set_color COLOR_RED State.boot)).current_g = 0 := by rw [hs]; rfl
  have hb : (k_msleep (int32_of_uint32 delay_ms)
      (rgb_set_color COLOR_RED State.boot)).current_b = 0 := by rw [hs]; rfl
  unfold fadeSleeps
  rw [emitted_rgb_set_color_fade COLOR_RED State.boot hne,
    emitted_turn_off_all_leds_lit _ (by rw [hr]; decide) (by rw [hg]; decide)
      (by rw [hb]; decide) (fun hz => by rw [hr] at hz; exact absurd hz.1 (by decide)),
    sleepCount_fadeLog, sleepCount_fadeLog]
  simp [LED_FADE_STEPS]

/-- C6 (as stated, refuted): after boot, one red blink with `delay = 2`, the
fade delay, logs 204 sleeps of 2 ms and not `2 * count = 2`; and with
`delay = 3000000000` no sleep of that length is logged at all: the two sleeps
of the loop receive the delay converted to `int32_t`, -1294967296. -/
theorem rgb_blink_with_color_sleeps_not_two_per_pair :
    (emitted (rgb_blink_with_color COLOR_RED 2 1) State.boot).count (Event.k_msleep 2) = 204 ∧
    (204 : Nat) ≠ 2 * (1 : Int).toNat ∧
    (emitted (rgb_blink_with_color COLOR_RED 3000000000 1) State.boot).count
      (Event.k_msleep 3000000000) = 0 ∧
    (emitted (rgb_blink_with_color COLOR_RED 3000000000 1) State.boot).count
      (Event.k_msleep (-1294967296)) = 2 := by
  have h2 : int32_of_uint32 2 = 2 := by decide
  have h3 : int32_of_uint32 3000000000 = -1294967296 := by decide
  have hsum : ∀ d : Nat, ((List.range (1 : Int).toNat).map (fun (k : Nat) =>
      fadeSleeps COLOR_RED d (rgb_blink_with_color COLOR_RED d (k : Int) State.boot))).sum
        = 202 := by
    intro d
    have h1 : (List.range (1 : Int).toNat) = [0] := rfl
    have h0 : rgb_blink_with_color COLOR_RED d ((0 : Nat) : Int) State.boot = State.boot := rfl
    rw [h1, List.map_cons, List.map_nil, List.sum_cons, List.sum_nil, h0, fadeSleeps_red_boot]
    rfl
  refine ⟨?_, by decide, ?_, ?_⟩
  · rw [count_sleep_emitted_blink 2 COLOR_RED 2 1 State.boot (by decide) (by decide)
      (by decide), hsum, h2, if_pos rfl, if_pos (by decide)]
    rfl
  · rw [count_sleep_emitted_blink 3000000000 COLOR_RED 3000000000 1 State.boot (by decide)
      (by decide) (by decide), h3, if_neg (by decide), if_neg (by decide)]
  · rw [count_sleep_emitted_blink (-1294967296) COLOR_RED 3000000000 1 State.boot (by decide)
      (by decide) (by decide), h3, if_pos rfl, if_neg (by decide)]
    rfl

/-- C6 (amended): for a delay below `2^31` ms, which `k_msleep` receives
unchanged, `rgb_blink_with_color(color, delay, count)` run from any state with
8-bit channels performs exactly `max(count, 0)` render/extinguish pairs: the
calls it makes are, pair after pair, those of `rgb_set_color(color)`, a sleep of
`delay`, those of `turn_off_all_leds()`, a sleep of `delay`.  The loop itself
thus makes `2 * count` sleeps of `delay`; these are all the sleeps of that
length in the log unless `delay` is the fade delay `LED_FADE_DELAY_MS`, in
which case the sleeps of the fade steps inside the two renderer calls have that
length too.  For `count <= 0` the state is unchanged: no call, no sleep, same
displayed colour. -/
theorem rgb_blink_with_color_pairs (color delay_ms : Nat) (count : Int) (s : State)
    (hr : s.current_r < 256) (hg : s.current_g < 256) (hb : s.current_b < 256)
    (hd : delay_ms < 2 ^ 31) :
    (count.toNat : Int) = max count 0 ∧
    (count ≤ 0 → rgb_blink_with_color color delay_ms count s = s) ∧
    emitted (rgb_blink_with_color color delay_ms count) s =
      (List.range count.toNat).flatMap (fun (k : Nat) =>
        pairLog color delay_ms (rgb_blink_with_color color delay_ms (k : Int) s)) ∧
    (∀ t : State, pairLog color delay_ms t =
      emitted (rgb_set_color color) t ++ [Event.k_msleep (delay_ms : Int)] ++
        emitted turn_off_all_leds (k_msleep (delay_ms : Int) (rgb_set_color color t)) ++
        [Event.k_msleep (delay_ms : Int)]) ∧
    sleepCount (emitted (rgb_blink_with_color color delay_ms count) s) =
      2 * count.toNat + ((List.range count.toNat).map (fun (k : Nat) =>
        fadeSleeps color delay_ms (rgb_blink_with_color color delay_ms (k : Int) s))).sum ∧
    (emitted (rgb_blink_with_color color delay_ms count) s).count
        (Event.k_msleep (delay_ms : Int)) =
      2 * count.toNat +
        (if delay_ms = LED_FADE_DELAY_MS then
          ((List.range count.toNat).map (fun (k : Nat) =>
            fadeSleeps color delay_ms (rgb_blink_with_color color delay_ms (k : Int) s))).sum
        else 0) ∧
    (delay_ms ≠ LED_FADE_DELAY_MS →
      (emitted (rgb_blink_with_color color delay_ms count) s).count
        (Event.k_msleep (delay_ms : Int)) = 2 * count.toNat) := by
  have hconv := int32_of_uint32_small delay_ms hd
  have hem : emitted (rgb_blink_with_color color delay_ms count) s =
      (List.range count.toNat).flatMap (fun (k : Nat) =>
        pairLog color delay_ms (rgb_blink_with_color color delay_ms (k : Int) s)) := by
    simp only [rgb_blink_with_color_natCast]
    exact emitted_rgb_blink color delay_ms count.toNat s hr hg hb
  have hcount := count_sleep_emitted_blink (delay_ms : Int) color delay_ms count s hr hg hb
  rw [hconv, if_pos rfl] at hcount
  have hiff : ((delay_ms : Int) = (LED_FADE_DELAY_MS : Int)) ↔ delay_ms = LED_FADE_DELAY_MS :=
    Int.ofNat_inj
  refine ⟨Int.toNat_eq_max count, ?_, hem, ?_, ?_, ?_, ?_⟩
  · intro hc
    simp [rgb_blink_with_color, Int.toNat_eq_zero.2 hc]
  · intro t
    rw [pairLog, hconv]
  · rw [hem]
    simp only [rgb_blink_with_color_natCast]
    exact sleepCount_pairs color delay_ms s count.toNat
  · rw [hcount]
    by_cases h : delay_ms = LED_FADE_DELAY_MS
    · rw [if_pos (hiff.2 h), if_pos h]
    · rw [if_neg (fun e => h (hiff.1 e)), if_neg h]
  · intro h
    rw [hcount, if_neg (fun e => h (hiff.1 e))]
    rfl

/-- Witness of C6 (amended): three red blinks of 400 ms after boot sleep six
times for 400 ms. -/
theorem rgb_blink_with_color_pairs_witness :
    State.boot.current_r < 256 ∧ State.boot.current_g < 256 ∧ State.boot.current_b < 256 ∧
    (400 : Nat) < 2 ^ 31 ∧
    (emitted (rgb_blink_with_color COLOR_RED 400 3) State.boot).count
      (Event.k_msleep ((400 : Nat) : Int)) = 2 * (3 : Int).toNat :=
  ⟨by decide, by decide, by decide, by decide,
    (rgb_blink_with_color_pairs COLOR_RED 400 3 State.boot (by decide) (by decide)
      (by decide) (by decide)).2.2.2.2.2.2 (by decide)⟩

/-! ## Battery animation -/

/-- C7: for every value `zmk_battery_state_of_charge()` returns (stored in the
8-bit `level`), `bat_animation_work_handler` is exactly one call of
`rgb_blink_with_color` with the 400 ms battery delay: yellow x3 for
`level <= 15`, green x1 for `16..30`, green x2 for `31..70`, green x3 above 70;
so 10 and 15 give yellow x3, 16 and 25 green x1, 50 green x2, 90 green x3. -/
theorem bat_animation_work_handler_thresholds (soc : Nat) (s : State) :
    (soc % 256 ≤ 15 → bat_animation_work_handler soc s =
      rgb_blink_with_color COLOR_YELLOW 400 3 s) ∧
    (16 ≤ soc % 256 ∧ soc % 256 ≤ 30 → bat_animation_work_handler soc s =
      rgb_blink_with_color COLOR_GREEN 400 1 s) ∧
    (31 ≤ soc % 256 ∧ soc % 256 ≤ 70 → bat_animation_work_handler soc s =
      rgb_blink_with_color COLOR_GREEN 400 2 s) ∧
    (70 < soc % 256 → bat_animation_work_handler soc s =
      rgb_blink_with_color COLOR_GREEN 400 3 s) ∧
    bat_animation_work_handler 10 s = rgb_blink_with_color COLOR_YELLOW 400 3 s ∧
    bat_animation_work_handler 15 s = rgb_blink_with_color COLOR_YELLOW 400 3 s ∧
    bat_animation_work_handler 16 s = rgb_blink_with_color COLOR_GREEN 400 1 s ∧
    bat_animation_work_handler 25 s = rgb_blink_with_color COLOR_GREEN 400 1 s ∧
    bat_animation_work_handler 50 s = rgb_blink_with_color COLOR_GREEN 400 2 s ∧
    bat_animation_work_handler 90 s = rgb_blink_with_color COLOR_GREEN 400 3 s := by
  refine ⟨?_, ?_, ?_, ?_, ?_, ?_, ?_, ?_, ?_, ?_⟩
  · intro h
    simp [bat_animation_work_handler, LED_BLINK_BATTERY_DELAY_MS, h]
  · rintro ⟨h1, h2⟩
    have h3 : ¬ soc % 256 ≤ 15 := by omega
    simp [bat_animation_work_handler, LED_BLINK_BATTERY_DELAY_MS, h2, h3]
  · rintro ⟨h1, h2⟩
    have h3 : ¬ soc % 256 ≤ 15 := by omega
    have h4 : ¬ soc % 256 ≤ 30 := by omega
    simp [bat_animation_work_handler, LED_BLINK_BATTERY_DELAY_MS, h2, h3, h4]
  · intro h
    have h3 : ¬ soc % 256 ≤ 15 := by omega
    have h4 : ¬ soc % 256 ≤ 30 := by omega
    have h5 : ¬ soc % 256 ≤ 70 := by omega
    simp [bat_animation_work_handler, LED_BLINK_BATTERY_DELAY_MS, h3, h4, h5]
  all_goals simp [bat_animation_work_handler, LED_BLINK_BATTERY_DELAY_MS]

/-! ## Pairing-profile notifications -/

/-- C8: on a pairing-profile notification with index `i <= 2`,
`ble_profile_listener` stores `i + 1` in `profile_blink_count` and makes one
call, submitting `ble_profile_work` to the animation queue with `K_NO_WAIT` (a
work item that was not pending becomes due at once); the work handler run on
that state blinks blue `i + 1` times with the 500 ms profile delay.  For
`i > 2` the listener changes nothing: no work is submitted and the stored count
is kept. -/
theorem ble_profile_listener_index (index : Nat) (s : State) :
    (index ≤ 2 →
      (ble_profile_listener (ZmkEvent.ble_active_profile_changed index) s).2.profile_blink_count
        = (index : Int) + 1 ∧
      emitted (fun t => (ble_profile_listener (ZmkEvent.ble_active_profile_changed index) t).2) s
        = [Event.k_work_schedule_for_queue Queue.animation_work_q Work.ble_profile_work 0] ∧
      (s.pending Work.ble_profile_work = none →
        (ble_profile_listener (ZmkEvent.ble_active_profile_changed index) s).2.pending
          Work.ble_profile_work = some s.now) ∧
      (s.is_conn_checking = true →
        ble_profile_work_handler
            (ble_profile_listener (ZmkEvent.ble_active_profile_changed index) s).2 =
          rgb_blink_with_color COLOR_BLUE 500 ((index : Int) + 1)
            (ble_profile_listener (ZmkEvent.ble_active_profile_changed index) s).2) ∧
      (s.is_conn_checking = false →
        ble_profile_work_handler
            (ble_profile_listener (ZmkEvent.ble_active_profile_changed index) s).2 =
          k_work_reschedule Work.check_ble_conn_work 4000
            { rgb_blink_with_color COLOR_BLUE 500 ((index : Int) + 1)
                (ble_profile_listener (ZmkEvent.ble_active_profile_changed index) s).2
              with is_conn_checking := true })) ∧
    (2 < index →
      (ble_profile_listener (ZmkEvent.ble_active_profile_changed index) s).2 = s ∧
      emitted (fun t => (ble_profile_listener (ZmkEvent.ble_active_profile_changed index) t).2) s
        = []) := by
  constructor
  · intro hi
    have hs : (ble_profile_listener (ZmkEvent.ble_active_profile_changed index) s).2 =
        k_work_schedule_for_queue Queue.animation_work_q Work.ble_profile_work K_NO_WAIT
          { s with profile_blink_count := (index : Int) + 1 } := by
      simp [ble_profile_listener, as_zmk_ble_active_profile_changed, hi]
    refine ⟨by rw [hs]; rfl, ?_, ?_, ?_, ?_⟩
    · exact emitted_of_log _ s
        [Event.k_work_schedule_for_queue Queue.animation_work_q Work.ble_profile_work 0]
        (by simp only [hs]; rfl)
    · intro hp
      rw [hs]
      simp [k_work_schedule_for_queue, hp, K_NO_WAIT]
    · intro hc
      rw [hs, ble_profile_work_handler_armed _ (by simpa [k_work_schedule_for_queue] using hc)]
      rfl
    · intro hc
      rw [hs, ble_profile_work_handler_idle _ (by simpa [k_work_schedule_for_queue] using hc)]
      rfl
  · intro hi
    have hs : (ble_profile_listener (ZmkEvent.ble_active_profile_changed index) s).2 = s := by
      simp [ble_profile_listener, as_zmk_ble_active_profile_changed, Nat.not_le.2 hi]
    refine ⟨hs, emitted_of_log _ s [] ?_⟩
    simp only [hs, List.append_nil]

/-! ## Connection-health poller -/

/-- C9: one cycle of `check_ble_conn_handler`.  Armed and (wireless link
connected or `usb_conn_state != ZMK_USB_CONN_NONE`): only `is_conn_checking`
becomes false; no call is made, so no blink and no reschedule.  Armed and
neither: the handler blinks red three times with the 400 ms delay, then
reschedules `check_ble_conn_work` 4000 ms after the end of the blink, and stays
armed.  Idle: nothing changes. -/
theorem check_ble_conn_handler_cycle (connected : Bool) (s : State) :
    (s.is_conn_checking = true →
      (connected = true ∨ s.usb_conn_state ≠ ZMK_USB_CONN_NONE) →
      check_ble_conn_handler connected s = { s with is_conn_checking := false } ∧
      emitted (check_ble_conn_handler connected) s = [] ∧
      (check_ble_conn_handler connected s).pending = s.pending) ∧
    (s.is_conn_checking = true → connected = false →
      s.usb_conn_state = ZMK_USB_CONN_NONE →
      check_ble_conn_handler connected s =
        k_work_reschedule Work.check_ble_conn_work 4000
          (rgb_blink_with_color COLOR_RED 400 3 s) ∧
      (check_ble_conn_handler connected s).log =
        (rgb_blink_with_color COLOR_RED 400 3 s).log ++
          [Event.k_work_reschedule Work.check_ble_conn_work 4000] ∧
      (check_ble_conn_handler connected s).pending Work.check_ble_conn_work =
        some ((rgb_blink_with_color COLOR_RED 400 3 s).now + 4000) ∧
      (check_ble_conn_handler connected s).is_conn_checking = true) ∧
    (s.is_conn_checking = false → check_ble_conn_handler connected s = s) := by
  refine ⟨?_, ?_, ?_⟩
  · intro ha hc
    have hs : check_ble_conn_handler connected s = { s with is_conn_checking := false } := by
      simp [check_ble_conn_handler, ha, hc]
    refine ⟨hs, emitted_of_log _ s [] ?_, by rw [hs]⟩
    simp only [hs, List.append_nil]
  · intro ha hc hu
    have hs : check_ble_conn_handler connected s =
        k_work_reschedule Work.check_ble_conn_work 4000
          (rgb_blink_with_color COLOR_RED 400 3 s) := by
      simp [check_ble_conn_handler, ha, hc, hu, LED_BLINK_BT_CONNECT_DELAY_MS, K_SECONDS]
    have hg := (sameGlobals_rgb_blink_with_color COLOR_RED 400 3 s).1
    refine ⟨hs, by rw [hs]; rfl, ?_, ?_⟩
    · rw [hs]
      simp [k_work_reschedule]
    · rw [hs]
      simpa [k_work_reschedule, ha] using hg
  · intro hi
    simp [check_ble_conn_handler, hi]

/-- C10 (the code at the failing input): the poller is armed with its check due
at 4000 ms and no wired link is present.  `usb_conn_work_handler`, run at
1000 ms, calls `k_work_reschedule` all the same and moves the deadline to
5000 ms, whereas `ble_profile_work_handler` in the same state leaves the flag
and the deadline as they are. -/
theorem usb_conn_work_handler_reschedules_when_armed :
    armedState.is_conn_checking = true ∧
    armedState.usb_conn_state = ZMK_USB_CONN_NONE ∧
    armedState.pending Work.check_ble_conn_work = some 4000 ∧
    (usb_conn_work_handler armedState).is_conn_checking = true ∧
    emitted usb_conn_work_handler armedState =
      [Event.k_work_reschedule Work.check_ble_conn_work 4000] ∧
    (usb_conn_work_handler armedState).pending Work.check_ble_conn_work = some 5000 ∧
    (ble_profile_work_handler armedState).is_conn_checking = true ∧
    (ble_profile_work_handler armedState).pending Work.check_ble_conn_work = some 4000 := by
  have hg := sameGlobals_rgb_blink_with_color COLOR_BLUE LED_BLINK_PROFILE_DELAY_MS
    armedState.profile_blink_count armedState
  have hb := ble_profile_work_handler_armed armedState rfl
  refine ⟨rfl, rfl, rfl, rfl, rfl, rfl, ?_, ?_⟩
  · rw [hb, hg.1]
    rfl
  · rw [hb, hg.2.2.2]
    rfl

/-! ## The calls of the renderer, from any state -/

theorem rendersOnly_refl (s : State) : rendersOnly s s :=
  ⟨[], by simp, by simp⟩

theorem rendersOnly_trans {s t u : State} (h1 : rendersOnly s t) (h2 : rendersOnly t u) :
    rendersOnly s u := by
  obtain ⟨l1, hl1, hr1⟩ := h1
  obtain ⟨l2, hl2, hr2⟩ := h2
  refine ⟨l1 ++ l2, by rw [hl2, hl1, List.append_assoc], ?_⟩
  intro e he
  rcases List.mem_append.1 he with h | h
  · exact hr1 e h
  · exact hr2 e h

theorem rendersOnly_foldl (step : State → Nat → State)
    (hstep : ∀ a i, rendersOnly a (step a i)) (l : List Nat) (s : State) :
    rendersOnly s (l.foldl step s) := by
  induction l generalizing s with
  | nil => exact rendersOnly_refl s
  | cons i l ih => exact rendersOnly_trans (hstep s i) (ih (step s i))

theorem rendersOnly_k_msleep (ms : Int) (s : State) : rendersOnly s (k_msleep ms s) :=
  ⟨[Event.k_msleep ms], rfl, by simp [Event.isRender]⟩

theorem rendersOnly_rgb_set_color_step (tr tg tb : Nat) (s : State) (i : Nat) :
    rendersOnly s (rgb_set_color_step tr tg tb s i) :=
  ⟨[Event.led_set_brightness (rgb_led_id RED_LED) (tr * i / LED_FADE_STEPS % 256 % 256),
    Event.led_set_brightness (rgb_led_id GREEN_LED) (tg * i / LED_FADE_STEPS % 256 % 256),
    Event.led_set_brightness (rgb_led_id BLUE_LED) (tb * i / LED_FADE_STEPS % 256 % 256),
    Event.k_msleep LED_FADE_DELAY_MS],
    by simp [rgb_set_color_step, set_led_brightness, led_set_brightness, k_msleep],
    by simp [Event.isRender]⟩

theorem rendersOnly_fade_down_step (s : State) (i : Nat) :
    rendersOnly s (fade_down_step s i) :=
  ⟨[Event.led_set_brightness (rgb_led_id RED_LED) (s.current_r * i / LED_FADE_STEPS % 256),
    Event.led_set_brightness (rgb_led_id GREEN_LED) (s.current_g * i / LED_FADE_STEPS % 256),
    Event.led_set_brightness (rgb_led_id BLUE_LED) (s.current_b * i / LED_FADE_STEPS % 256),
    Event.k_msleep LED_FADE_DELAY_MS],
    by simp [fade_down_step, set_led_brightness, led_set_brightness, k_msleep],
    by simp [Event.isRender]⟩

theorem rendersOnly_turn_off_step (s : State) (i : Nat) :
    rendersOnly s (turn_off_step s i) :=
  ⟨[Event.led_off (rgb_led_id i)], rfl, by simp [Event.isRender]⟩

theorem rendersOnly_set_channels (s : State) (r g b : Nat) :
    rendersOnly s { s with current_r := r, current_g := g, current_b := b } :=
  ⟨[], by simp, by simp⟩

theorem rendersOnly_rgb_set_color (color : Nat) (s : State) :
    rendersOnly s (rgb_set_color color s) := by
  unfold rgb_set_color
  split
  · exact rendersOnly_refl s
  · exact rendersOnly_foldl (rgb_set_color_step (target_r color) (target_g color)
      (target_b color)) (rendersOnly_rgb_set_color_step _ _ _) _ s

theorem rendersOnly_turn_off_all_leds (s : State) :
    rendersOnly s (turn_off_all_leds s) := by
  unfold turn_off_all_leds
  split
  · exact rendersOnly_foldl turn_off_step rendersOnly_turn_off_step _ s
  · exact rendersOnly_trans
      (rendersOnly_foldl fade_down_step rendersOnly_fade_down_step _ s)
      (rendersOnly_set_channels _ 0 0 0)

theorem rendersOnly_rgb_blink_with_color (color delay_ms : Nat) (count : Int) (s : State) :
    rendersOnly s (rgb_blink_with_color color delay_ms count s) := by
  unfold rgb_blink_with_color
  refine rendersOnly_foldl _ (fun a i => ?_) _ s
  exact rendersOnly_trans (rendersOnly_rgb_set_color color a)
    (rendersOnly_trans (rendersOnly_k_msleep _ _)
      (rendersOnly_trans (rendersOnly_turn_off_all_leds _) (rendersOnly_k_msleep _ _)))

/-- A step that only renders appends exactly what `emitted` reports. -/
theorem log_of_rendersOnly (f : State → State) (s : State) (h : rendersOnly s (f s)) :
    (f s).log = s.log ++ emitted f s ∧ ∀ e ∈ emitted f s, e.isRender = true := by
  obtain ⟨l, hl, hr⟩ := h
  have he : emitted f s = l := emitted_of_log f s l hl
  rw [he]
  exact ⟨hl, hr⟩

/-- The displayed colour after `turn_off_all_leds` is all-zero, from any state. -/
theorem turn_off_all_leds_displayed (s : State) :
    (turn_off_all_leds s).displayed = (0, 0, 0) := by
  by_cases hz : s.current_r = 0 ∧ s.current_g = 0 ∧ s.current_b = 0
  · rw [turn_off_all_leds_dark s hz]
    simp [State.displayed, hz]
  · rw [turn_off_all_leds, if_neg hz]
    rfl

theorem k_msleep_displayed (ms : Int) (s : State) :
    (k_msleep ms s).displayed = s.displayed := rfl

theorem rgb_blink_displayed (color delay_ms : Nat) (n : Nat) (s : State) :
    ((List.range (n + 1)).foldl (rgb_blink_step color delay_ms) s).displayed = (0, 0, 0) := by
  rw [List.range_succ, List.foldl_append]
  simp only [List.foldl_cons, List.foldl_nil, rgb_blink_step]
  rw [k_msleep_displayed, turn_off_all_leds_displayed]

/-! ## Wired-link notifications -/

theorem usb_conn_listener_state (conn_state : Int) (s : State) :
    (usb_conn_listener (ZmkEvent.usb_conn_state_changed conn_state) s).2 =
      k_work_schedule_for_queue Queue.animation_work_q Work.usb_conn_work K_NO_WAIT
        { s with usb_conn_state := conn_state } := by
  simp [usb_conn_listener, as_zmk_usb_conn_state_changed]

/-- C11 (as stated, refuted): after the notification "powered with a host"
(`ZMK_USB_CONN_HID`, a powered link) `usb_conn_work_handler` submits no
wired-link animation and arms the poller, which was idle. -/
theorem usb_conn_work_handler_hid_arms_poller :
    hidNotified.usb_conn_state = ZMK_USB_CONN_HID ∧
    ZMK_USB_CONN_HID ≠ ZMK_USB_CONN_NONE ∧
    hidNotified.is_conn_checking = false ∧
    (usb_conn_work_handler hidNotified).is_conn_checking = true ∧
    emitted usb_conn_work_handler hidNotified =
      [Event.k_work_reschedule Work.check_ble_conn_work 4000] ∧
    Event.k_work_schedule_for_queue Queue.animation_work_q Work.usb_animation_work 0 ∉
      emitted usb_conn_work_handler hidNotified := by
  have he : emitted usb_conn_work_handler hidNotified =
      [Event.k_work_reschedule Work.check_ble_conn_work 4000] := rfl
  refine ⟨rfl, by decide, rfl, rfl, he, ?_⟩
  rw [he]
  decide

/-- C11 (amended): `usb_conn_listener` records the new state and submits
`usb_conn_work` to the animation queue.  `usb_conn_work_handler`, run on that
state, submits the wired-link animation and leaves the poller flag alone only
when the state is `ZMK_USB_CONN_POWERED` (powered, no data); for every other
state, absent and powered-with-host alike, it submits no animation and arms
the poller, scheduling the first check 4000 ms later when the poller was
idle. -/
theorem usb_conn_notification_effect (conn_state : Int) (s : State) :
    (usb_conn_listener (ZmkEvent.usb_conn_state_changed conn_state) s).2.usb_conn_state =
      conn_state ∧
    (usb_conn_listener (ZmkEvent.usb_conn_state_changed conn_state) s).2.is_conn_checking =
      s.is_conn_checking ∧
    emitted (fun t => (usb_conn_listener (ZmkEvent.usb_conn_state_changed conn_state) t).2) s =
      [Event.k_work_schedule_for_queue Queue.animation_work_q Work.usb_conn_work 0] ∧
    (conn_state = ZMK_USB_CONN_POWERED →
      emitted usb_conn_work_handler
          (usb_conn_listener (ZmkEvent.usb_conn_state_changed conn_state) s).2 =
        [Event.k_work_schedule_for_queue Queue.animation_work_q Work.usb_animation_work 0] ∧
      (usb_conn_work_handler
          (usb_conn_listener (ZmkEvent.usb_conn_state_changed conn_state) s).2).is_conn_checking
        = s.is_conn_checking) ∧
    (conn_state ≠ ZMK_USB_CONN_POWERED →
      (usb_conn_work_handler
          (usb_conn_listener (ZmkEvent.usb_conn_state_changed conn_state) s).2).is_conn_checking
        = true ∧
      Event.k_work_schedule_for_queue Queue.animation_work_q Work.usb_animation_work 0 ∉
        emitted usb_conn_work_handler
          (usb_conn_listener (ZmkEvent.usb_conn_state_changed conn_state) s).2 ∧
      (s.is_conn_checking = false →
        emitted usb_conn_work_handler
            (usb_conn_listener (ZmkEvent.usb_conn_state_changed conn_state) s).2 =
          [Event.k_work_reschedule Work.check_ble_conn_work 4000])) := by
  have hs := usb_conn_listener_state conn_state s
  refine ⟨by rw [hs]; rfl, by rw [hs]; rfl, ?_, ?_, ?_⟩
  · exact emitted_of_log _ s
      [Event.k_work_schedule_for_queue Queue.animation_work_q Work.usb_conn_work 0]
      (by simp only [hs]; rfl)
  · intro hc
    have hh : usb_conn_work_handler
        (usb_conn_listener (ZmkEvent.usb_conn_state_changed conn_state) s).2 =
        k_work_schedule_for_queue Queue.animation_work_q Work.usb_animation_work K_NO_WAIT
          (usb_conn_listener (ZmkEvent.usb_conn_state_changed conn_state) s).2 := by
      rw [hs]
      simp [usb_conn_work_handler, k_work_schedule_for_queue, hc]
    refine ⟨emitted_of_log _ _
      [Event.k_work_schedule_for_queue Queue.animation_work_q Work.usb_animation_work 0]
      (by rw [hh]; rfl), ?_⟩
    rw [hh, hs]
    rfl
  · intro hc
    have hh : usb_conn_work_handler
        (usb_conn_listener (ZmkEvent.usb_conn_state_changed conn_state) s).2 =
        k_work_reschedule Work.check_ble_conn_work (K_SECONDS 4)
          { (usb_conn_listener (ZmkEvent.usb_conn_state_changed conn_state) s).2 with
            is_conn_checking := true } := by
      rw [hs]
      simp [usb_conn_work_handler, k_work_schedule_for_queue, hc]
    have he : emitted usb_conn_work_handler
        (usb_conn_listener (ZmkEvent.usb_conn_state_changed conn_state) s).2 =
        [Event.k_work_reschedule Work.check_ble_conn_work 4000] :=
      emitted_of_log _ _ [Event.k_work_reschedule Work.check_ble_conn_work 4000]
        (by rw [hh]; rfl)
    refine ⟨by rw [hh]; rfl, ?_, fun _ => he⟩
    rw [he]
    decide

/-! ## What the handlers emit -/

theorem submits_of_isRender (e : Event) (h : e.isRender = true) : e.submits = none := by
  cases e <;> simp_all [Event.isRender, Event.submits]

theorem log_after_render (f : State → State) (s t : State) (l : List Event)
    (hf : rendersOnly s (f s)) (ht : t.log = (f s).log ++ l) :
    t.log = s.log ++ (emitted f s ++ l) := by
  rw [ht, (log_of_rendersOnly f s hf).1, List.append_assoc]

theorem check_ble_conn_handler_blinks (s : State) (ha : s.is_conn_checking = true)
    (hu : s.usb_conn_state = ZMK_USB_CONN_NONE) :
    check_ble_conn_handler false s =
      k_work_reschedule Work.check_ble_conn_work 4000
        (rgb_blink_with_color COLOR_RED 400 3 s) := by
  simp [check_ble_conn_handler, ha, hu, LED_BLINK_BT_CONNECT_DELAY_MS, K_SECONDS]

theorem emitted_check_ble_conn_handler_blinks (s : State) (ha : s.is_conn_checking = true)
    (hu : s.usb_conn_state = ZMK_USB_CONN_NONE) :
    emitted (check_ble_conn_handler false) s =
      emitted (rgb_blink_with_color COLOR_RED 400 3) s ++
        [Event.k_work_reschedule Work.check_ble_conn_work 4000] := by
  refine emitted_of_log _ s _ ?_
  refine log_after_render (rgb_blink_with_color COLOR_RED 400 3) s _ _
    (rendersOnly_rgb_blink_with_color COLOR_RED 400 3 s) ?_
  rw [check_ble_conn_handler_blinks s ha hu]
  rfl

theorem emitted_check_ble_conn_handler_quiet (connected : Bool) (s : State)
    (h : s.is_conn_checking = false ∨ connected = true ∨
      s.usb_conn_state ≠ ZMK_USB_CONN_NONE) :
    emitted (check_ble_conn_handler connected) s = [] := by
  refine emitted_of_log _ s [] ?_
  by_cases ha : s.is_conn_checking = true
  · rcases h with h | h | h
    · simp [ha] at h
    · simp [check_ble_conn_handler, ha, h]
    · simp [check_ble_conn_handler, ha, h]
  · simp [check_ble_conn_handler, ha]

theorem emitted_ble_profile_work_handler (s : State) :
    emitted ble_profile_work_handler s =
      emitted (rgb_blink_with_color COLOR_BLUE 500 s.profile_blink_count) s ++
        (if s.is_conn_checking = true then []
          else [Event.k_work_reschedule Work.check_ble_conn_work 4000]) := by
  refine emitted_of_log _ s _ ?_
  refine log_after_render (rgb_blink_with_color COLOR_BLUE 500 s.profile_blink_count) s _ _
    (rendersOnly_rgb_blink_with_color COLOR_BLUE 500 s.profile_blink_count s) ?_
  by_cases ha : s.is_conn_checking = true
  · rw [ble_profile_work_handler_armed s ha, if_pos ha, List.append_nil]
    rfl
  · have hf : s.is_conn_checking = false := by simpa using ha
    rw [ble_profile_work_handler_idle s hf, if_neg ha]
    rfl

theorem emitted_usb_conn_work_handler (s : State) :
    emitted usb_conn_work_handler s =
      (if s.usb_conn_state = ZMK_USB_CONN_POWERED then
        [Event.k_work_schedule_for_queue Queue.animation_work_q Work.usb_animation_work 0]
      else [Event.k_work_reschedule Work.check_ble_conn_work 4000]) := by
  refine emitted_of_log _ s _ ?_
  by_cases hp : s.usb_conn_state = ZMK_USB_CONN_POWERED
  · simp [usb_conn_work_handler, hp, k_work_schedule_for_queue, K_NO_WAIT]
  · simp [usb_conn_work_handler, hp, k_work_reschedule, K_SECONDS]

/-! ## Which queue runs the renderer -/

/-- C12 (the code at the failing input): the connection-check work item is
never put on the animation queue.  In every state, each submission of
`check_ble_conn_work` made by `check_ble_conn_handler`,
`ble_profile_work_handler` and `usb_conn_work_handler` is a `k_work_reschedule`
call, which names no queue and goes to the system work queue; and in the armed
state with no link the cycle handler does blink red and resubmits itself
there, while pairing-profile work is submitted to `animation_work_q`. -/
theorem check_ble_conn_work_goes_to_system_queue (connected : Bool) (s : State) :
    (∀ e ∈ emitted (check_ble_conn_handler connected) s, ∀ q : Queue,
      e.submits = some (Work.check_ble_conn_work, q) → q = Queue.k_sys_work_q) ∧
    (∀ e ∈ emitted ble_profile_work_handler s, ∀ q : Queue,
      e.submits = some (Work.check_ble_conn_work, q) → q = Queue.k_sys_work_q) ∧
    (∀ e ∈ emitted usb_conn_work_handler s, ∀ q : Queue,
      e.submits = some (Work.check_ble_conn_work, q) → q = Queue.k_sys_work_q) ∧
    check_ble_conn_handler false armedState =
      k_work_reschedule Work.check_ble_conn_work 4000
        (rgb_blink_with_color COLOR_RED 400 3 armedState) ∧
    (emitted (check_ble_conn_handler false) armedState).getLast? =
      some (Event.k_work_reschedule Work.check_ble_conn_work 4000) ∧
    (Event.k_work_reschedule Work.check_ble_conn_work 4000).submits =
      some (Work.check_ble_conn_work, Queue.k_sys_work_q) ∧
    Queue.k_sys_work_q ≠ Queue.animation_work_q ∧
    (emitted (fun t => (ble_profile_listener (ZmkEvent.ble_active_profile_changed 0) t).2)
        armedState).map Event.submits =
      [some (Work.ble_profile_work, Queue.animation_work_q)] := by
  have hrender : ∀ (l : List Event), (∀ e ∈ l, e.isRender = true) →
      ∀ e ∈ l ++ [Event.k_work_reschedule Work.check_ble_conn_work 4000], ∀ q : Queue,
        e.submits = some (Work.check_ble_conn_work, q) → q = Queue.k_sys_work_q := by
    intro l hl e he q hq
    rcases List.mem_append.1 he with h | h
    · rw [submits_of_isRender e (hl e h)] at hq
      exact absurd hq (by simp)
    · rw [List.mem_singleton.1 h] at hq
      simp only [Event.submits, Option.some.injEq, Prod.mk.injEq, true_and] at hq
      exact hq.symm
  refine ⟨?_, ?_, ?_, check_ble_conn_handler_blinks armedState rfl rfl, ?_, rfl, by decide, rfl⟩
  · by_cases hq : s.is_conn_checking = false ∨ connected = true ∨
        s.usb_conn_state ≠ ZMK_USB_CONN_NONE
    · rw [emitted_check_ble_conn_handler_quiet connected s hq]
      simp
    · have h3 : s.is_conn_checking = true ∧ connected = false ∧
          s.usb_conn_state = ZMK_USB_CONN_NONE := by
        simp only [not_or, not_not] at hq
        exact ⟨by simpa using hq.1, by simpa using hq.2.1, hq.2.2⟩
      rw [h3.2.1, emitted_check_ble_conn_handler_blinks s h3.1 h3.2.2]
      exact hrender _ (log_of_rendersOnly _ s
        (rendersOnly_rgb_blink_with_color COLOR_RED 400 3 s)).2
  · rw [emitted_ble_profile_work_handler s]
    have hr := (log_of_rendersOnly _ s
      (rendersOnly_rgb_blink_with_color COLOR_BLUE 500 s.profile_blink_count s)).2
    by_cases ha : s.is_conn_checking = true
    · rw [if_pos ha, List.append_nil]
      intro e he q hq
      rw [submits_of_isRender e (hr e he)] at hq
      exact absurd hq (by simp)
    · rw [if_neg ha]
      exact hrender _ hr
  · rw [emitted_usb_conn_work_handler s]
    by_cases hp : s.usb_conn_state = ZMK_USB_CONN_POWERED
    · rw [if_pos hp]
      intro e he q hq
      rw [List.mem_singleton.1 he] at hq
      simp [Event.submits] at hq
    · rw [if_neg hp]
      exact hrender [] (by simp)
  · rw [emitted_check_ble_conn_handler_blinks armedState rfl rfl]
    simp

/-! ## Listener results -/

/-- C13: both listeners return `ZMK_EV_EVENT_BUBBLE` for every event, whatever
its type and payload: neither "handled" nor "captured" is ever returned.  In
particular for an event of another type, for the other listener's event, and
for a pairing notification with the out-of-range index 3. -/
theorem listeners_always_bubble (eh : ZmkEvent) (s : State) :
    (ble_profile_listener eh s).1 = ZMK_EV_EVENT_BUBBLE ∧
    (usb_conn_listener eh s).1 = ZMK_EV_EVENT_BUBBLE ∧
    (ble_profile_listener eh s).1 ≠ ZMK_EV_EVENT_HANDLED ∧
    (ble_profile_listener eh s).1 ≠ ZMK_EV_EVENT_CAPTURED ∧
    (usb_conn_listener eh s).1 ≠ ZMK_EV_EVENT_HANDLED ∧
    (usb_conn_listener eh s).1 ≠ ZMK_EV_EVENT_CAPTURED ∧
    (ble_profile_listener ZmkEvent.other s).1 = ZMK_EV_EVENT_BUBBLE ∧
    (ble_profile_listener (ZmkEvent.usb_conn_state_changed ZMK_USB_CONN_HID) s).1 =
      ZMK_EV_EVENT_BUBBLE ∧
    (ble_profile_listener (ZmkEvent.ble_active_profile_changed 3) s).1 =
      ZMK_EV_EVENT_BUBBLE ∧
    (usb_conn_listener ZmkEvent.other s).1 = ZMK_EV_EVENT_BUBBLE ∧
    (usb_conn_listener (ZmkEvent.ble_active_profile_changed 3) s).1 =
      ZMK_EV_EVENT_BUBBLE := by
  have hb : ∀ e : ZmkEvent, (ble_profile_listener e s).1 = ZMK_EV_EVENT_BUBBLE := by
    intro e
    unfold ble_profile_listener
    split
    · split <;> rfl
    · rfl
  have hu : ∀ e : ZmkEvent, (usb_conn_listener e s).1 = ZMK_EV_EVENT_BUBBLE := by
    intro e
    unfold usb_conn_listener
    split <;> rfl
  refine ⟨hb eh, hu eh, ?_, ?_, ?_, ?_, hb _, hb _, hb _, hu _, hu _⟩
  · rw [hb eh]; decide
  · rw [hb eh]; decide
  · rw [hu eh]; decide
  · rw [hu eh]; decide

/-! ## The `DisplayState` invariant -/

theorem rgb_set_color_displayed (color : Nat) (s : State) :
    (rgb_set_color color s).displayed = (target_r color, target_g color, target_b color) := by
  by_cases hc : target_r color = s.current_r ∧ target_g color = s.current_g ∧
      target_b color = s.current_b
  · rw [rgb_set_color_same color s hc]
    simp [State.displayed, hc]
  · rw [rgb_set_color_fade color s hc]
    simp [State.displayed]

theorem rgb_blink_with_color_displayed (color delay_ms : Nat) (count : Int) (s : State)
    (h : 0 < count) :
    (rgb_blink_with_color color delay_ms count s).displayed = (0, 0, 0) := by
  obtain ⟨n, hn⟩ : ∃ n : Nat, count.toNat = n + 1 :=
    ⟨count.toNat - 1, by have := Int.lt_toNat.2 (show ((0 : Nat) : Int) < count from h); omega⟩
  rw [rgb_blink_with_color, hn]
  exact rgb_blink_displayed color delay_ms n s

theorem rgb_blink_with_color_nonpos (color delay_ms : Nat) (count : Int) (s : State)
    (h : count ≤ 0) : rgb_blink_with_color color delay_ms count s = s := by
  simp [rgb_blink_with_color, Int.toNat_eq_zero.2 h]

theorem displayInv_run (op : RenderOp) (st : State × Option (Nat × Nat × Nat))
    (h : DisplayInv st) : DisplayInv (op.run st.1, op.lastTarget st.2) := by
  cases op with
  | set_color color =>
    right
    simp [RenderOp.run, RenderOp.lastTarget, rgb_set_color_displayed]
  | turn_off =>
    left
    exact turn_off_all_leds_displayed st.1
  | blink color delay_ms count =>
    by_cases hc : 0 < count
    · left
      exact rgb_blink_with_color_displayed color delay_ms count st.1 hc
    · have hs := rgb_blink_with_color_nonpos color delay_ms count st.1 (not_lt.1 hc)
      simp only [DisplayInv, RenderOp.run, RenderOp.lastTarget, hs, if_neg hc]
      exact h

/-- C14: `rgb_set_color(T)` leaves the displayed colour equal to `T`,
`turn_off_all_leds` leaves it all-zero, `rgb_blink_with_color` with
`count >= 1` leaves it all-zero and with `count <= 0` leaves it as it was, each
from any state.  Hence along every sequence of renderer operations, started
where the invariant holds (for instance at boot), the displayed colour after
each completed operation is all-zero or the last target fully applied. -/
theorem display_state_invariant (ops : List RenderOp)
    (st : State × Option (Nat × Nat × Nat)) :
    (∀ color s, (rgb_set_color color s).displayed =
      (target_r color, target_g color, target_b color)) ∧
    (∀ s, (turn_off_all_leds s).displayed = (0, 0, 0)) ∧
    (∀ color delay_ms count s, 1 ≤ count →
      (rgb_blink_with_color color delay_ms count s).displayed = (0, 0, 0)) ∧
    (∀ color delay_ms count s, count ≤ 0 →
      (rgb_blink_with_color color delay_ms count s).displayed = s.displayed) ∧
    DisplayInv (State.boot, none) ∧
    (DisplayInv st → DisplayInv (runOps ops st)) := by
  refine ⟨rgb_set_color_displayed, turn_off_all_leds_displayed, ?_, ?_, Or.inl rfl, ?_⟩
  · intro color delay_ms count s hc
    exact rgb_blink_with_color_displayed color delay_ms count s (by omega)
  · intro color delay_ms count s hc
    rw [rgb_blink_with_color_nonpos color delay_ms count s hc]
  · intro h
    unfold runOps
    induction ops generalizing st with
    | nil => exact h
    | cons op ops ih => exact ih _ (displayInv_run op st h)

/-! ## Initialisation -/

/-- C15: `led_init`, run while the displayed colour is all-zero (as at boot),
makes exactly six calls: `led_off` on the channels 0, 1, 2 (no brightness
write, no sleep), `k_work_queue_init` and `k_work_queue_start` on the animation
queue, and `k_work_schedule_for_queue` of `bat_animation_work` on that queue
with a delay of 1000 ms (the item, not pending before, is due 1000 ms later);
the displayed colour stays all-zero and the function returns 0. -/
theorem led_init_sequence (s : State) (h : s.displayed = (0, 0, 0)) :
    (led_init s).1 = 0 ∧
    emitted (fun t => (led_init t).2) s =
      [Event.led_off 0, Event.led_off 1, Event.led_off 2,
       Event.k_work_queue_init Queue.animation_work_q,
       Event.k_work_queue_start Queue.animation_work_q 5,
       Event.k_work_schedule_for_queue Queue.animation_work_q Work.bat_animation_work 1000] ∧
    (led_init s).2.displayed = (0, 0, 0) ∧
    (led_init s).2.now = s.now ∧
    (s.pending Work.bat_animation_work = none →
      (led_init s).2.pending Work.bat_animation_work = some (s.now + 1000)) := by
  have hc : s.current_r = 0 ∧ s.current_g = 0 ∧ s.current_b = 0 := by
    simpa [State.displayed] using h
  have hs : (led_init s).2 =
      k_work_schedule_for_queue Queue.animation_work_q Work.bat_animation_work 1000
        (k_work_queue_start Queue.animation_work_q 5
          (k_work_queue_init Queue.animation_work_q
            { s with log := s.log ++ [Event.led_off 0, Event.led_off 1, Event.led_off 2] })) := by
    simp only [led_init, turn_off_all_leds_dark s hc]
    rfl
  refine ⟨rfl, ?_, ?_, by rw [hs]; rfl, ?_⟩
  · refine emitted_of_log _ s _ ?_
    simp only [hs]
    simp [k_work_schedule_for_queue, k_work_queue_start, k_work_queue_init]
  · rw [hs]
    simpa [State.displayed, k_work_schedule_for_queue, k_work_queue_start,
      k_work_queue_init] using hc
  · intro hp
    rw [hs]
    simp [k_work_schedule_for_queue, k_work_queue_start, k_work_queue_init, hp]

/-- Witness of C15: `led_init` at boot. -/
theorem led_init_sequence_witness :
    State.boot.displayed = (0, 0, 0) ∧ (led_init State.boot).1 = 0 ∧
    (led_init State.boot).2.pending Work.bat_animation_work = some 1000 :=
  ⟨rfl, (led_init_sequence State.boot rfl).1,
    (led_init_sequence State.boot rfl).2.2.2.2 rfl⟩

/-! ## Wired-link animation -/

/-- C17: `usb_animation_work_handler` compares the recorded state with
`USB_DC_SUSPEND`: when they are equal it is `turn_off_all_leds()` and nothing
else (no blink); for every other recorded state, among them the three values
of `enum zmk_usb_conn_state`, it is `rgb_blink_with_color(COLOR_PURPLE, 200, 3)`. -/
theorem usb_animation_work_handler_cases (s : State) :
    (s.usb_conn_state = USB_DC_SUSPEND →
      usb_animation_work_handler s = turn_off_all_leds s ∧
      (usb_animation_work_handler s).displayed = (0, 0, 0)) ∧
    (s.usb_conn_state ≠ USB_DC_SUSPEND →
      usb_animation_work_handler s = rgb_blink_with_color COLOR_PURPLE 200 3 s ∧
      (usb_animation_work_handler s).displayed = (0, 0, 0)) ∧
    (s.usb_conn_state = ZMK_USB_CONN_NONE ∨ s.usb_conn_state = ZMK_USB_CONN_POWERED ∨
        s.usb_conn_state = ZMK_USB_CONN_HID →
      usb_animation_work_handler s = rgb_blink_with_color COLOR_PURPLE 200 3 s) := by
  have hne : s.usb_conn_state ≠ USB_DC_SUSPEND →
      usb_animation_work_handler s = rgb_blink_with_color COLOR_PURPLE 200 3 s := by
    intro h
    simp [usb_animation_work_handler, h, LED_BLINK_USB_DELAY_MS]
  refine ⟨?_, ?_, ?_⟩
  · intro h
    have hs : usb_animation_work_handler s = turn_off_all_leds s := by
      simp [usb_animation_work_handler, h]
    exact ⟨hs, by rw [hs]; exact turn_off_all_leds_displayed s⟩
  · intro h
    refine ⟨hne h, ?_⟩
    rw [hne h]
    exact rgb_blink_with_color_displayed COLOR_PURPLE 200 3 s (by decide)
  · intro h
    apply hne
    rcases h with h | h | h <;> rw [h] <;> decide

/-! ## Range of the fade values -/

/-- C20: for every 8-bit channel value `c` and every step `i <= 100` the
truncated quotient `c * i / 100` lies between 0 and `c`, is 0 at `i = 0` and `c`
at `i = 100`; the product fits a 32-bit `int` and the quotient is unchanged by
the store into a `uint8_t`.  So one step of the loop of `rgb_set_color` leaves
exactly these values displayed, and one step of the fade-down loop of
`turn_off_all_leds` writes exactly these values. -/
theorem fade_value_in_range (c i : Nat) (s : State) (hc : c < 256)
    (hi : i ≤ LED_FADE_STEPS) :
    0 ≤ c * i / LED_FADE_STEPS ∧ c * i / LED_FADE_STEPS ≤ c ∧
    c * 0 / LED_FADE_STEPS = 0 ∧ c * 100 / LED_FADE_STEPS = c ∧
    c * i < 2 ^ 31 ∧
    c * i / LED_FADE_STEPS < 256 ∧
    c * i / LED_FADE_STEPS % 256 = c * i / LED_FADE_STEPS ∧
    (rgb_set_color_step c c c s i).displayed =
      (c * i / 100, c * i / 100, c * i / 100) ∧
    emitted (fun t => fade_down_step t i)
        { s with current_r := c, current_g := c, current_b := c } =
      [Event.led_set_brightness 0 (c * i / 100), Event.led_set_brightness 1 (c * i / 100),
       Event.led_set_brightness 2 (c * i / 100), Event.k_msleep 2] := by
  have hle := scale_le c i hi
  have hmod := scale_mod c i hc hi
  have hi100 : i ≤ 100 := hi
  refine ⟨Nat.zero_le _, hle, by simp, scale_full c, ?_, by omega, hmod, ?_, ?_⟩
  · have : c * i ≤ 255 * 100 := Nat.mul_le_mul (by omega) hi100
    omega
  · rw [rgb_set_color_step_eq c c c s i hc hc hc hi]
    rfl
  · refine emitted_of_log _ _ _ ?_
    simp only []
    rw [fade_down_step_eq _ i hc hc hc hi]
    rfl

/-- Witness of C20: full intensity at the half-way step. -/
theorem fade_value_in_range_witness :
    (255 : Nat) < 256 ∧ 50 ≤ LED_FADE_STEPS ∧ 255 * 50 / LED_FADE_STEPS ≤ 255 ∧
    255 * 50 / LED_FADE_STEPS % 256 = 255 * 50 / LED_FADE_STEPS :=
  ⟨by decide, by decide,
    (fade_value_in_range 255 50 State.boot (by decide) (by decide)).2.1,
    (fade_value_in_range 255 50 State.boot (by decide) (by decide)).2.2.2.2.2.2.1⟩

/-! ## Arming the poller -/

theorem ble_profile_work_handler_arms (s : State) (h : s.is_conn_checking = false) :
    (ble_profile_work_handler s).is_conn_checking = true ∧
    (ble_profile_work_handler s).usb_conn_state = s.usb_conn_state ∧
    ∀ w : Work, w ≠ Work.check_ble_conn_work →
      (ble_profile_work_handler s).pending w = s.pending w := by
  have hg := sameGlobals_rgb_blink_with_color COLOR_BLUE LED_BLINK_PROFILE_DELAY_MS
    s.profile_blink_count s
  rw [ble_profile_work_handler_idle s h]
  refine ⟨rfl, hg.2.1, ?_⟩
  intro w hw
  simp only [k_work_reschedule, Function.update_noteq hw]
  rw [hg.2.2.2]

/-- C16 (as stated, refuted): with an idle poller and a powered wired link,
`ble_profile_work_handler` moves the poller from idle to checking although a
wired link is present. -/
theorem ble_profile_work_handler_arms_despite_wired_link :
    idlePowered.is_conn_checking = false ∧
    idlePowered.usb_conn_state = ZMK_USB_CONN_POWERED ∧
    ZMK_USB_CONN_POWERED ≠ ZMK_USB_CONN_NONE ∧
    (ble_profile_work_handler idlePowered).is_conn_checking = true ∧
    (ble_profile_work_handler idlePowered).usb_conn_state = ZMK_USB_CONN_POWERED :=
  ⟨rfl, rfl, by decide, (ble_profile_work_handler_arms idlePowered rfl).1,
    (ble_profile_work_handler_arms idlePowered rfl).2.1⟩

/-- C16 (amended): the work handlers move the poller from idle to checking
without consulting the link state.  `ble_profile_work_handler` does so whenever
the poller is idle, `usb_conn_work_handler` whenever the recorded wired-link
state is not `ZMK_USB_CONN_POWERED` (for the powered state it leaves the flag
alone); neither changes the recorded state.  Whether the wireless link is
connected or a wired link is present is looked at by the next cycle of
`check_ble_conn_handler` only, which then returns to idle without any call. -/
theorem poller_arming_is_unconditional (connected : Bool) (s : State) :
    (s.is_conn_checking = false →
      (ble_profile_work_handler s).is_conn_checking = true ∧
      (ble_profile_work_handler s).usb_conn_state = s.usb_conn_state) ∧
    (s.is_conn_checking = false → s.usb_conn_state ≠ ZMK_USB_CONN_POWERED →
      (usb_conn_work_handler s).is_conn_checking = true ∧
      (usb_conn_work_handler s).usb_conn_state = s.usb_conn_state) ∧
    (s.usb_conn_state = ZMK_USB_CONN_POWERED →
      (usb_conn_work_handler s).is_conn_checking = s.is_conn_checking) ∧
    (s.is_conn_checking = true →
      (connected = true ∨ s.usb_conn_state ≠ ZMK_USB_CONN_NONE) →
      (check_ble_conn_handler connected s).is_conn_checking = false ∧
      emitted (check_ble_conn_handler connected) s = []) := by
  refine ⟨?_, ?_, ?_, ?_⟩
  · intro h
    exact ⟨(ble_profile_work_handler_arms s h).1, (ble_profile_work_handler_arms s h).2.1⟩
  · intro _ hp
    simp [usb_conn_work_handler, hp, k_work_reschedule]
  · intro hp
    simp [usb_conn_work_handler, hp, k_work_schedule_for_queue]
  · intro ha hc
    refine ⟨?_, emitted_check_ble_conn_handler_quiet connected s (Or.inr hc)⟩
    simp [check_ble_conn_handler, ha, hc]

/-! ## Coalescing of pairing-profile requests -/

theorem twoProfileNotifications_eq (i1 i2 : Nat) (s : State) (h1 : i1 ≤ 2) (h2 : i2 ≤ 2)
    (hp : s.pending Work.ble_profile_work = none) :
    twoProfileNotifications i1 i2 s =
      { s with
        profile_blink_count := (i2 : Int) + 1
        pending := Function.update s.pending Work.ble_profile_work (some s.now)
        log := s.log ++
          [Event.k_work_schedule_for_queue Queue.animation_work_q Work.ble_profile_work 0,
           Event.k_work_schedule_for_queue Queue.animation_work_q Work.ble_profile_work 0] } := by
  simp [twoProfileNotifications, ble_profile_listener, as_zmk_ble_active_profile_changed, h1, h2,
    k_work_schedule_for_queue, hp, K_NO_WAIT]

/-- C18: two pairing-profile notifications with the valid indices `i1`, `i2`
arrive while `ble_profile_work` is not pending and before the queue runs it.
Both call `k_work_schedule_for_queue`, the item is pending once, due at once,
and the stored count is `i2 + 1`.  The queue then runs the handler, which
blinks blue `i2 + 1` times (and arms the poller when it was idle); after that
the item is no longer pending, so the queue does not run it a second time. -/
theorem pairing_requests_coalesce (i1 i2 : Nat) (s : State) (h1 : i1 ≤ 2) (h2 : i2 ≤ 2)
    (hp : s.pending Work.ble_profile_work = none) :
    (twoProfileNotifications i1 i2 s).profile_blink_count = (i2 : Int) + 1 ∧
    (twoProfileNotifications i1 i2 s).pending Work.ble_profile_work = some s.now ∧
    emitted (twoProfileNotifications i1 i2) s =
      [Event.k_work_schedule_for_queue Queue.animation_work_q Work.ble_profile_work 0,
       Event.k_work_schedule_for_queue Queue.animation_work_q Work.ble_profile_work 0] ∧
    work_queue_run Work.ble_profile_work ble_profile_work_handler
        (twoProfileNotifications i1 i2 s) =
      (true, ble_profile_work_handler
        ((twoProfileNotifications i1 i2 s).dequeue Work.ble_profile_work)) ∧
    emitted ble_profile_work_handler
        ((twoProfileNotifications i1 i2 s).dequeue Work.ble_profile_work) =
      emitted (rgb_blink_with_color COLOR_BLUE 500 ((i2 : Int) + 1))
          ((twoProfileNotifications i1 i2 s).dequeue Work.ble_profile_work) ++
        (if s.is_conn_checking = true then []
          else [Event.k_work_reschedule Work.check_ble_conn_work 4000]) ∧
    (work_queue_run Work.ble_profile_work ble_profile_work_handler
      (work_queue_run Work.ble_profile_work ble_profile_work_handler
        (twoProfileNotifications i1 i2 s)).2).1 = false := by
  have hs := twoProfileNotifications_eq i1 i2 s h1 h2 hp
  have hpend : (twoProfileNotifications i1 i2 s).pending Work.ble_profile_work =
      some s.now := by
    rw [hs]; simp
  have hnow : (twoProfileNotifications i1 i2 s).now = s.now := by rw [hs]
  have hrun : work_queue_run Work.ble_profile_work ble_profile_work_handler
      (twoProfileNotifications i1 i2 s) =
      (true, ble_profile_work_handler
        ((twoProfileNotifications i1 i2 s).dequeue Work.ble_profile_work)) := by
    simp [work_queue_run, hpend, hnow]
  have hcount : ((twoProfileNotifications i1 i2 s).dequeue
      Work.ble_profile_work).profile_blink_count = (i2 : Int) + 1 := by
    rw [hs]; rfl
  have hchk : ((twoProfileNotifications i1 i2 s).dequeue
      Work.ble_profile_work).is_conn_checking = s.is_conn_checking := by
    rw [hs]; rfl
  have hdq : ((twoProfileNotifications i1 i2 s).dequeue
      Work.ble_profile_work).pending Work.ble_profile_work = none := by
    simp [State.dequeue]
  refine ⟨by rw [hs], hpend, emitted_of_log _ s _ (by rw [hs]), hrun, ?_, ?_⟩
  · rw [emitted_ble_profile_work_handler, hcount, hchk]
  · rw [hrun]
    have hafter : (ble_profile_work_handler
        ((twoProfileNotifications i1 i2 s).dequeue Work.ble_profile_work)).pending
          Work.ble_profile_work = none := by
      by_cases ha : s.is_conn_checking = true
      · rw [ble_profile_work_handler_armed _ (by rw [hchk]; exact ha),
          (sameGlobals_rgb_blink_with_color _ _ _ _).2.2.2]
        exact hdq
      · have hf : s.is_conn_checking = false := by simpa using ha
        rw [(ble_profile_work_handler_arms _ (by rw [hchk]; exact hf)).2.2
          Work.ble_profile_work (by decide)]
        exact hdq
    simp [work_queue_run, hafter]

/-- Witness of C18: the indices 0 then 2 right after boot; the handler runs
once, with the count 3. -/
theorem pairing_requests_coalesce_witness :
    State.boot.pending Work.ble_profile_work = none ∧
    (twoProfileNotifications 0 2 State.boot).profile_blink_count = 3 ∧
    (work_queue_run Work.ble_profile_work ble_profile_work_handler
      (work_queue_run Work.ble_profile_work ble_profile_work_handler
        (twoProfileNotifications 0 2 State.boot)).2).1 = false :=
  ⟨rfl, (pairing_requests_coalesce 0 2 State.boot (by decide) (by decide) rfl).1,
    (pairing_requests_coalesce 0 2 State.boot (by decide) (by decide) rfl).2.2.2.2.2⟩

/-! ## The poller over many cycles -/

theorem poller_cycles_succ (n : Nat) (s : State) :
    poller_cycles (List.replicate (n + 1) false) s =
      check_ble_conn_handler false (poller_cycles (List.replicate n false) s) := by
  simp [poller_cycles, List.replicate_succ', List.foldl_append]

theorem count_reschedule_blink (color delay_ms : Nat) (count : Int) (s : State) :
    (emitted (rgb_blink_with_color color delay_ms count) s).count
      (Event.k_work_reschedule Work.check_ble_conn_work 4000) = 0 := by
  rw [List.count_eq_zero]
  intro hmem
  have h := (log_of_rendersOnly _ s
    (rendersOnly_rgb_blink_with_color color delay_ms count s)).2 _ hmem
  simp [Event.isRender] at h

theorem count_sleep_blink_three (color : Nat) (s : State)
    (hr : s.current_r < 256) (hg : s.current_g < 256) (hb : s.current_b < 256) :
    (emitted (rgb_blink_with_color color 400 3) s).count (Event.k_msleep 400) = 6 ∧
    (rgb_blink_with_color color 400 3 s).current_r < 256 ∧
    (rgb_blink_with_color color 400 3 s).current_g < 256 ∧
    (rgb_blink_with_color color 400 3 s).current_b < 256 := by
  have h3 : rgb_blink_with_color color 400 3 =
      fun t => (List.range 3).foldl (rgb_blink_step color 400) t := rfl
  obtain ⟨-, h1, h2, h4, -, -⟩ := rgb_blink_fold_spec color 400 s hr hg hb 3
  have h400 : int32_of_uint32 400 = 400 := by decide
  have hc := count_sleep_pairs color 400 s hr hg hb (by rw [h400]; decide) 3
  rw [h400] at hc
  rw [h3, emitted_rgb_blink color 400 3 s hr hg hb, hc]
  exact ⟨rfl, h1, h2, h4⟩

theorem poller_step_spec (t : State)
    (ha : t.is_conn_checking = true) (hu : t.usb_conn_state = ZMK_USB_CONN_NONE)
    (hr : t.current_r < 256) (hg : t.current_g < 256) (hb : t.current_b < 256) :
    (check_ble_conn_handler false t).is_conn_checking = true ∧
    (check_ble_conn_handler false t).usb_conn_state = ZMK_USB_CONN_NONE ∧
    (check_ble_conn_handler false t).current_r < 256 ∧
    (check_ble_conn_handler false t).current_g < 256 ∧
    (check_ble_conn_handler false t).current_b < 256 ∧
    (check_ble_conn_handler false t).log = t.log ++ cycleLog t ∧
    (check_ble_conn_handler false t).pending Work.check_ble_conn_work =
      some ((check_ble_conn_handler false t).now + 4000) ∧
    (cycleLog t).count (Event.k_work_reschedule Work.check_ble_conn_work 4000) = 1 ∧
    (cycleLog t).count (Event.k_msleep 400) = 6 := by
  have hstep := check_ble_conn_handler_blinks t ha hu
  have hg' := sameGlobals_rgb_blink_with_color COLOR_RED 400 3 t
  obtain ⟨h6, hr', hgg', hb'⟩ := count_sleep_blink_three COLOR_RED t hr hg hb
  have hlog := (log_of_rendersOnly _ t (rendersOnly_rgb_blink_with_color COLOR_RED 400 3 t)).1
  have hc0 := count_reschedule_blink COLOR_RED 400 3 t
  generalize rgb_blink_with_color COLOR_RED 400 3 t = u at *
  generalize hE : emitted (rgb_blink_with_color COLOR_RED 400 3) t = l at *
  rw [hstep]
  refine ⟨hg'.1.trans ha, hg'.2.1.trans hu, hr', hgg', hb', ?_, ?_, ?_, ?_⟩
  · show u.log ++ [Event.k_work_reschedule Work.check_ble_conn_work 4000] = _
    rw [hlog, cycleLog, hE, List.append_assoc]
  · simp [k_work_reschedule]
  · rw [cycleLog, hE, List.count_append, hc0]
    simp
  · rw [cycleLog, hE, List.count_append, h6]
    simp


theorem poller_cycles_spec (n : Nat) (s : State)
    (ha : s.is_conn_checking = true) (hu : s.usb_conn_state = ZMK_USB_CONN_NONE)
    (hr : s.current_r < 256) (hg : s.current_g < 256) (hb : s.current_b < 256) :
    (poller_cycles (List.replicate n false) s).is_conn_checking = true ∧
    (poller_cycles (List.replicate n false) s).usb_conn_state = ZMK_USB_CONN_NONE ∧
    (poller_cycles (List.replicate n false) s).current_r < 256 ∧
    (poller_cycles (List.replicate n false) s).current_g < 256 ∧
    (poller_cycles (List.replicate n false) s).current_b < 256 ∧
    (poller_cycles (List.replicate n false) s).log =
      s.log ++ (List.range n).flatMap (fun (k : Nat) =>
        cycleLog (poller_cycles (List.replicate k false) s)) ∧
    ((List.range n).flatMap (fun (k : Nat) =>
        cycleLog (poller_cycles (List.replicate k false) s))).count
      (Event.k_work_reschedule Work.check_ble_conn_work 4000) = n ∧
    ((List.range n).flatMap (fun (k : Nat) =>
        cycleLog (poller_cycles (List.replicate k false) s))).count
      (Event.k_msleep 400) = 6 * n ∧
    (0 < n → (poller_cycles (List.replicate n false) s).pending Work.check_ble_conn_work =
      some ((poller_cycles (List.replicate n false) s).now + 4000)) := by
  induction n with
  | zero =>
    refine ⟨ha, hu, hr, hg, hb, ?_, rfl, rfl, fun h => absurd h (lt_irrefl 0)⟩
    simp [poller_cycles]
  | succ n ih =>
    obtain ⟨iha, ihu, ihr, ihg, ihb, ihlog, ihc, ihs, -⟩ := ih
    obtain ⟨ka, ku, kr, kg, kb, klog, kp, kc, ks⟩ :=
      poller_step_spec (poller_cycles (List.replicate n false) s) iha ihu ihr ihg ihb
    rw [poller_cycles_succ, List.range_succ, List.flatMap_append, List.count_append,
      List.count_append, ihc, ihs]
    simp only [List.flatMap_cons, List.flatMap_nil, List.append_nil]
    refine ⟨ka, ku, kr, kg, kb, ?_, by rw [kc], by rw [ks]; omega, fun _ => kp⟩
    rw [klog, ihlog, List.append_assoc]

/-- C19: the poller has no retry cap.  For every `n`, when the poller is armed
and during `n` consecutive cycles the wireless link is not connected and the
recorded wired-link state stays `ZMK_USB_CONN_NONE`, then after these cycles
the poller is still armed; its calls are, cycle after cycle, those of
`rgb_blink_with_color(COLOR_RED, 400, 3)` followed by one
`k_work_reschedule(&check_ble_conn_work, K_SECONDS(4))`: exactly `n`
reschedules and `6 * n` sleeps of 400 ms (three blinks per cycle), and after
the last cycle the next check is due 4000 ms later. -/
theorem poller_has_no_retry_cap (n : Nat) (s : State)
    (ha : s.is_conn_checking = true) (hu : s.usb_conn_state = ZMK_USB_CONN_NONE)
    (hr : s.current_r < 256) (hg : s.current_g < 256) (hb : s.current_b < 256) :
    (poller_cycles (List.replicate n false) s).is_conn_checking = true ∧
    (poller_cycles (List.replicate n false) s).usb_conn_state = ZMK_USB_CONN_NONE ∧
    emitted (poller_cycles (List.replicate n false)) s =
      (List.range n).flatMap (fun (k : Nat) =>
        cycleLog (poller_cycles (List.replicate k false) s)) ∧
    (emitted (poller_cycles (List.replicate n false)) s).count
      (Event.k_work_reschedule Work.check_ble_conn_work 4000) = n ∧
    (emitted (poller_cycles (List.replicate n false)) s).count (Event.k_msleep 400) = 6 * n ∧
    (0 < n → (poller_cycles (List.replicate n false) s).pending Work.check_ble_conn_work =
      some ((poller_cycles (List.replicate n false) s).now + 4000)) := by
  obtain ⟨h1, h2, -, -, -, hlog, hc, hs, hp⟩ := poller_cycles_spec n s ha hu hr hg hb
  have hem : emitted (poller_cycles (List.replicate n false)) s =
      (List.range n).flatMap (fun (k : Nat) =>
        cycleLog (poller_cycles (List.replicate k false) s)) :=
    emitted_of_log _ s _ hlog
  rw [hem]
  exact ⟨h1, h2, rfl, hc, hs, hp⟩

/-- Witness of C19: two cycles from the armed state with no link. -/
theorem poller_has_no_retry_cap_witness :
    armedState.is_conn_checking = true ∧ armedState.usb_conn_state = ZMK_USB_CONN_NONE ∧
    (poller_cycles (List.replicate 2 false) armedState).is_conn_checking = true ∧
    (emitted (poller_cycles (List.replicate 2 false)) armedState).count
      (Event.k_work_reschedule Work.check_ble_conn_work 4000) = 2 :=
  ⟨rfl, rfl,
    (poller_has_no_retry_cap 2 armedState rfl rfl (by decide) (by decide) (by decide)).1,
    (poller_has_no_retry_cap 2 armedState rfl rfl (by decide) (by decide)
      (by decide)).2.2.2.1⟩

end StatusLed
